import Mathlib

/-!
Verification of the pyz80 Z80 CPU emulator core against its
natural-language specification.

The development shallowly embeds the relevant parts of the source:

* `pyz80/registers.py` — the register file (`RegisterFile`), its
  attribute reads/writes, flag accessors and the `ex`/`exx` exchanges;
* `pyz80/machinestates.py` — the action combinators (`LDr`, `set_flags`,
  `force_flag`, `inc`, `dec`, `early_abort`, ...), the machine states
  (OCF, OD, MR, MW, SR, SW, IO) as phase-counted steppers, the opcode
  table (the subset of entries exercised by theorems, plus the complete
  key set and the complete extra-ticks list), and `decode_instruction`;
* `pyz80/cpu.py` — `Z80CPU.clock` and `Z80CPU.interrupt`;
* `pyz80/memorybus.py` — the default `MemoryBus` (a single 64 KiB RAM:
  reads and writes index `address % 0x10000`, writes store `data & 0xFF`).

Python integers are unbounded, so register values and scratch values are
embedded as `Int`.  The bitwise operators are embedded exactly
(two's-complement semantics for negative operands).
-/

set_option maxRecDepth 40000

namespace PyZ80

/-! ### Python integer primitives

Exact embeddings of the Python operators used by the source:
`&`, `|`, `~`, `<<`, `>>` and `%` on unbounded two's-complement
integers.  For negative operands the two's-complement identities
`x & y = y - (y & (-x-1))` (for `y ≥ 0 > x`) etc. are used. -/

/-- Python `~x` (bitwise complement of an unbounded int). -/
def pynot (x : Int) : Int := -x - 1

/-- Python `x & y` on unbounded ints (two's-complement for negatives). -/
def pyand (x y : Int) : Int :=
  if 0 ≤ x then
    if 0 ≤ y then ((x.toNat &&& y.toNat : Nat) : Int)
    else (x.toNat : Int) - ((x.toNat &&& (-y - 1).toNat : Nat) : Int)
  else
    if 0 ≤ y then (y.toNat : Int) - (((-x - 1).toNat &&& y.toNat : Nat) : Int)
    else -(((-x - 1).toNat ||| (-y - 1).toNat : Nat) : Int) - 1

/-- Python `x | y` on unbounded ints (two's-complement for negatives). -/
def pyor (x y : Int) : Int :=
  if 0 ≤ x then
    if 0 ≤ y then ((x.toNat ||| y.toNat : Nat) : Int)
    else -(((-y - 1).toNat : Int) - (((-y - 1).toNat &&& x.toNat : Nat) : Int)) - 1
  else
    if 0 ≤ y then -(((-x - 1).toNat : Int) - (((-x - 1).toNat &&& y.toNat : Nat) : Int)) - 1
    else -(((-x - 1).toNat &&& (-y - 1).toNat : Nat) : Int) - 1

/-- Python `x ^ y` restricted to the nonnegative operands the source
uses it on (the parity loop inside `set_flags`). -/
def pyxor (x y : Int) : Int := ((x.toNat ^^^ y.toNat : Nat) : Int)

/-- Python `x << n` (unbounded, exact). -/
def pyshl (x : Int) (n : Nat) : Int := x * (2 ^ n : Nat)

/-- Python `x >> n`: arithmetic (floor) shift, exact for negatives. -/
def pyshr (x : Int) (n : Nat) : Int := Int.fdiv x ((2 ^ n : Nat) : Int)

/-- Python `x % m` for `m > 0` (result is always nonnegative). -/
def pymod (x m : Int) : Int := Int.emod x m

/-! ### Register file (`pyz80/registers.py`, class `RegisterFile`)

The Python object stores the plain attributes `A B C D E F H L I R`
(8-bit by convention), `IX IY SP PC` (16-bit by convention) and the
shadow set `_A _B _C _D _E _F _H _L` (embedded as `sA` ... `sL`).
`__setattr__` accepts ANY `int` for a known plain attribute — there is
no range check anywhere in the class — and synthesises the pair and
half views; `__getattr__` synthesises reads of the views. -/

structure RegisterFile where
  A : Int
  B : Int
  C : Int
  D : Int
  E : Int
  F : Int
  H : Int
  L : Int
  I : Int
  R : Int
  IX : Int
  IY : Int
  SP : Int
  PC : Int
  sA : Int
  sB : Int
  sC : Int
  sD : Int
  sE : Int
  sF : Int
  sH : Int
  sL : Int

/-- `RegisterFile.__init__`: every register starts at zero. -/
def RegisterFile.reset : RegisterFile :=
  ⟨0, 0, 0, 0, 0, 0, 0, 0, 0, 0, 0, 0, 0, 0, 0, 0, 0, 0, 0, 0, 0, 0⟩

/-- `RegisterFile.ex`: exchange A and F with A' and F'. -/
def RegisterFile.ex (r : RegisterFile) : RegisterFile :=
  { r with A := r.sA, F := r.sF, sA := r.A, sF := r.F }

/-- `RegisterFile.exx`: exchange BC, DE, HL with BC', DE', HL'. -/
def RegisterFile.exx (r : RegisterFile) : RegisterFile :=
  { r with B := r.sB, C := r.sC, D := r.sD, E := r.sE, H := r.sH, L := r.sL,
           sB := r.B, sC := r.C, sD := r.D, sE := r.E, sH := r.H, sL := r.L }

/-- The register names accepted by `__getattr__`/`__setattr__`
(the flag letters are separate, see `FlagN`). -/
inductive RegN where
  | A | B | C | D | E | F | H | L | I | R
  | IX | IY | SP | PC
  | AF | BC | DE | HL
  | IXH | IXL | IYH | IYL | SPH | SPL | PCH | PCL
  deriving DecidableEq, Repr

/-- `getattr` on the register file (`RegisterFile.__getattr__` for the
synthesised views; plain attribute access otherwise). -/
def RegisterFile.get (r : RegisterFile) : RegN → Int
  | .A => r.A
  | .B => r.B
  | .C => r.C
  | .D => r.D
  | .E => r.E
  | .F => r.F
  | .H => r.H
  | .L => r.L
  | .I => r.I
  | .R => r.R
  | .IX => r.IX
  | .IY => r.IY
  | .SP => r.SP
  | .PC => r.PC
  | .AF => pyor (pyshl r.A 8) r.F
  | .BC => pyor (pyshl r.B 8) r.C
  | .DE => pyor (pyshl r.D 8) r.E
  | .HL => pyor (pyshl r.H 8) r.L
  | .IXH => pyshr r.IX 8
  | .IXL => pyand r.IX 255
  | .IYH => pyshr r.IY 8
  | .IYL => pyand r.IY 255
  | .SPH => pyshr r.SP 8
  | .SPL => pyand r.SP 255
  | .PCH => pyshr r.PC 8
  | .PCL => pyand r.PC 255

/-- `setattr` on the register file (`RegisterFile.__setattr__`).
For the pair views the value is split `(v >> 8) & 0xFF` / `v & 0xFF`;
for the half views the other half is re-read and recombined with `+`;
for plain attributes the value is stored UNCHANGED (no range check —
the only guards in the source are `isinstance(value, int)` and that the
attribute name already exists). -/
def RegisterFile.set (r : RegisterFile) : RegN → Int → RegisterFile
  | .A, v => { r with A := v }
  | .B, v => { r with B := v }
  | .C, v => { r with C := v }
  | .D, v => { r with D := v }
  | .E, v => { r with E := v }
  | .F, v => { r with F := v }
  | .H, v => { r with H := v }
  | .L, v => { r with L := v }
  | .I, v => { r with I := v }
  | .R, v => { r with R := v }
  | .IX, v => { r with IX := v }
  | .IY, v => { r with IY := v }
  | .SP, v => { r with SP := v }
  | .PC, v => { r with PC := v }
  | .AF, v => { r with A := pyand (pyshr v 8) 255, F := pyand v 255 }
  | .BC, v => { r with B := pyand (pyshr v 8) 255, C := pyand v 255 }
  | .DE, v => { r with D := pyand (pyshr v 8) 255, E := pyand v 255 }
  | .HL, v => { r with H := pyand (pyshr v 8) 255, L := pyand v 255 }
  | .IXH, v => { r with IX := pyand r.IX 255 + pyshl v 8 }
  | .IXL, v => { r with IX := pyshl (pyshr r.IX 8) 8 + v }
  | .IYH, v => { r with IY := pyand r.IY 255 + pyshl v 8 }
  | .IYL, v => { r with IY := pyshl (pyshr r.IY 8) 8 + v }
  | .SPH, v => { r with SP := pyand r.SP 255 + pyshl v 8 }
  | .SPL, v => { r with SP := pyshl (pyshr r.SP 8) 8 + v }
  | .PCH, v => { r with PC := pyand r.PC 255 + pyshl v 8 }
  | .PCL, v => { r with PC := pyshl (pyshr r.PC 8) 8 + v }

/-- Flag names (`S Z 5 H 3 P V N C`; `P` and `V` alias bit 2). -/
inductive FlagN where
  | S | Z | f5 | H | f3 | P | V | N | C
  deriving DecidableEq, Repr

/-- Bit position of a flag in F (`RegisterFile.getflag`). -/
def FlagN.bit : FlagN → Nat
  | .S => 7
  | .Z => 6
  | .f5 => 5
  | .H => 4
  | .f3 => 3
  | .P => 2
  | .V => 2
  | .N => 1
  | .C => 0

/-- `RegisterFile.getflag`: `(F >> bit) & 0x1`. -/
def RegisterFile.getflag (r : RegisterFile) (f : FlagN) : Int :=
  pyand (pyshr r.F f.bit) 1

/-- `RegisterFile.setflag`: `F |= 1 << bit`. -/
def RegisterFile.setflag (r : RegisterFile) (f : FlagN) : RegisterFile :=
  { r with F := pyor r.F (pyshl 1 f.bit) }

/-- `RegisterFile.resetflag`: `F &= 0xFF - (1 << bit)`. -/
def RegisterFile.resetflag (r : RegisterFile) (f : FlagN) : RegisterFile :=
  { r with F := pyand r.F (255 - pyshl 1 f.bit) }

/-! ### Scratch maps and actions (`pyz80/machinestates.py`)

An action in the source is a closure `_inner(state, *args)`; it may read
and write the CPU registers, read `cpu.iff2`, read/write the running
machine state's `kwargs` dict, and (only `early_abort`) truncate the
pipeline.  Actions never touch memory or `iff1`.  The embedding gives
actions the type `AState → List Int → AState` (`List Int` being
`*args`); `early_abort` sets a flag which the stepper turns into the
pipeline truncation — observationally equal because no action reads the
pipeline.  A lambda of the source written `lambda state, v : …` is
embedded as a function using the head of the argument list (the source
would raise `TypeError` were the list empty; in every pipeline embedded
here the argument is always supplied). -/

/-- The scratch keys the opcode table uses (`value`, `address`,
`target`, `summand`, and the `H`/`L` stash of EX (SP),HL). -/
inductive KKey where
  | value | address | target | summand | keyH | keyL
  deriving DecidableEq, Repr

/-- A machine state's `kwargs` scratch map. -/
structure Kwargs where
  value : Option Int := none
  address : Option Int := none
  target : Option Int := none
  summand : Option Int := none
  stashH : Option Int := none
  stashL : Option Int := none
  deriving Repr

/-- Empty scratch map (a fresh machine state's `kwargs = {}`). -/
def Kwargs.empty : Kwargs := {}

def Kwargs.get (k : Kwargs) : KKey → Option Int
  | .value => k.value
  | .address => k.address
  | .target => k.target
  | .summand => k.summand
  | .keyH => k.stashH
  | .keyL => k.stashL

def Kwargs.put (k : Kwargs) : KKey → Int → Kwargs
  | .value, v => { k with value := some v }
  | .address, v => { k with address := some v }
  | .target, v => { k with target := some v }
  | .summand, v => { k with summand := some v }
  | .keyH, v => { k with stashH := some v }
  | .keyL, v => { k with stashL := some v }

/-- The part of the CPU an action can see and modify, plus the running
machine state's scratch map and the `early_abort` flag. -/
structure AState where
  reg : RegisterFile
  iff2 : Int
  kw : Kwargs
  abortFlag : Bool

/-- An action: Python `_inner(state, *args)`. -/
abbrev Act := AState → List Int → AState

/-- `JP(value=None, key=None, source=None)` — jump to a resolved target.
The embedded entries use only the `source`/`key`/args/scratch forms, so
the callable-`value` branch of the source is not represented. -/
def actJP (key : Option KKey) (source : Option RegN) : Act := fun st args =>
  let target : Int :=
    match source with
    | some r => st.reg.get r
    | none =>
      match key with
      | some k => (st.kw.get k).getD 0
      | none =>
        match args with
        | t :: _ => t
        | [] => (st.kw.get .value).getD 0
  { st with reg := st.reg.set .PC target }

/-- `LDr(reg, value=None, key="value")` — load a resolved value into a
register.  The callable-`value` form carries the table's lambda. -/
def actLDr (r : RegN) (valueFn : Option (AState → List Int → Int)) (key : KKey) :
    Act := fun st args =>
  let v : Int :=
    match valueFn with
    | some f => f st args
    | none =>
      match args with
      | a :: _ => a
      | [] => (st.kw.get key).getD 0
  { st with reg := st.reg.set r v }

/-- `LDrs(r, s)` — register-to-register load. -/
def actLDrs (r s : RegN) : Act := fun st _ =>
  { st with reg := st.reg.set r (st.reg.get s) }

/-- `RRr(n, reg=None, value=None)` — stash a resolved value in a scratch
slot. -/
def actRRr (n : KKey) (reg : Option RegN) (valueFn : Option (AState → List Int → Int)) :
    Act := fun st args =>
  let v : Int :=
    match reg with
    | some r => st.reg.get r
    | none =>
      match valueFn with
      | some f => f st args
      | none =>
        match args with
        | a :: _ => a
        | [] => 0
  { st with kw := st.kw.put n v }

/-- `do_each(*actions)`. -/
def actSeq (acts : List Act) : Act := fun st args =>
  acts.foldl (fun s a => a s args) st

/-- `len(reg)` of the Python register-name string: `inc`/`dec` switch on
its parity to pick the 16-bit or 8-bit mask. -/
def RegN.nameLen : RegN → Nat
  | .A | .B | .C | .D | .E | .F | .H | .L | .I | .R => 1
  | .IX | .IY | .SP | .PC | .AF | .BC | .DE | .HL => 2
  | .IXH | .IXL | .IYH | .IYL | .SPH | .SPL | .PCH | .PCL => 3

/-- `inc(reg)`: `(reg + 1) & 0xFFFF` for even-length names else `& 0xFF`. -/
def actInc (r : RegN) : Act := fun st _ =>
  if r.nameLen % 2 = 0 then
    { st with reg := st.reg.set r (pyand (st.reg.get r + 1) 65535) }
  else
    { st with reg := st.reg.set r (pyand (st.reg.get r + 1) 255) }

/-- `dec(reg)`: `(0xFFFF + reg) & 0xFFFF` for even-length names else the
8-bit analogue. -/
def actDec (r : RegN) : Act := fun st _ =>
  if r.nameLen % 2 = 0 then
    { st with reg := st.reg.set r (pyand (65535 + st.reg.get r) 65535) }
  else
    { st with reg := st.reg.set r (pyand (255 + st.reg.get r) 255) }

/-- `on_zero(reg, action)`. -/
def actOnZero (r : RegN) (a : Act) : Act := fun st args =>
  if st.reg.get r = 0 then a st args else st

/-- `on_flag(flag, action)`. -/
def actOnFlag (f : FlagN) (a : Act) : Act := fun st args =>
  if st.reg.getflag f = 1 then a st args else st

/-- `unless_flag(flag, action)`. -/
def actUnlessFlag (f : FlagN) (a : Act) : Act := fun st args =>
  if st.reg.getflag f = 0 then a st args else st

/-- `force_flag(flag, value)` with a callable `value`. -/
def actForceFlag (f : FlagN) (valueFn : AState → List Int → Int) : Act :=
  fun st args =>
    if valueFn st args = 0 then { st with reg := st.reg.resetflag f }
    else { st with reg := st.reg.setflag f }

/-- `clear_flag(flag)`. -/
def actClearFlag (f : FlagN) : Act := fun st _ =>
  { st with reg := st.reg.resetflag f }

/-- `early_abort()`: pops the pipeline down to the running state.  The
stepper performs the truncation when the flag is set. -/
def actEarlyAbort : Act := fun st _ => { st with abortFlag := true }

/-- The parity loop of `set_flags` for the `'P'` mask letter:
`while p > 1: p = (p & 0x1) ^ (p >> 1)`. -/
def parityLoop (p : Nat) : Nat :=
  if h : 1 < p then parityLoop ((p &&& 1) ^^^ (p >>> 1)) else p
termination_by p
decreasing_by
  have h1 : p &&& 1 = p % 2 := Nat.and_one_is_mod p
  have h2 : p >>> 1 = p / 2 := rfl
  have hl : 2 ^ Nat.log2 p ≤ p := Nat.log2_self_le (by omega)
  have hu : p < 2 ^ (Nat.log2 p + 1) := Nat.lt_log2_self
  have hn : 1 ≤ Nat.log2 p := by
    by_contra hc
    have h0 : Nat.log2 p = 0 := by omega
    rw [h0] at hu
    norm_num at hu
    omega
  have hx : (p &&& 1) ^^^ (p >>> 1) < 2 ^ Nat.log2 p := by
    apply Nat.xor_lt_two_pow
    · have hp : (2 : Nat) ^ 1 ≤ 2 ^ Nat.log2 p := Nat.pow_le_pow_right (by omega) hn
      omega
    · rw [Nat.pow_succ] at hu
      omega
  omega

/-- One position of the `set_flags` mask string: the named letter
(compute), `'-'` (leave), or a literal `'0'`/`'1'`.  The letter `'H'`
at index 3 is never computed by `set_flags` (half-carry is handled by
separate `force_flag` actions), so it behaves exactly like `'-'` and is
embedded as `keep`. -/
inductive FSpec where
  | comp | keep | lit0 | lit1
  deriving DecidableEq, Repr

/-- Index 5 of the mask: `'V'` (overflow), `'P'` (parity), `'*'`
(copy iff2), `'-'`, or a literal. -/
inductive PVSpec where
  | vee | pee | star | keep | lit0 | lit1
  deriving DecidableEq, Repr

/-- An 8-character `set_flags` mask in bit order S Z 5 H 3 (P|V|*) N C. -/
structure FMask where
  s : FSpec
  z : FSpec
  b5 : FSpec
  h : FSpec
  b3 : FSpec
  pv : PVSpec
  n : FSpec
  c : FSpec
  deriving Repr

/-- Apply a literal mask character at bit `n` (the source's final loop
`for n in range(0,7)` touching `flags[7-n]`). -/
def applyLit (rr : RegisterFile) (sp : FSpec) (n : Nat) : RegisterFile :=
  match sp with
  | .lit1 => { rr with F := pyor rr.F (pyshl 1 n) }
  | .lit0 => { rr with F := pyand rr.F (255 - pyshl 1 n) }
  | _ => rr

/-- `set_flags`'s resolution of `D`: callable `value`, else `source`,
else a positional arg, else `kwargs[key]`. -/
def resolveValue (valueFn : Option (AState → List Int → Int)) (key : Option KKey)
    (source : Option RegN) (st : AState) (args : List Int) : Int :=
  match valueFn with
  | some f => f st args
  | none =>
    match source with
    | some r => st.reg.get r
    | none =>
      match args with
      | a :: _ => a
      | [] => (st.kw.get (key.getD .value)).getD 0

/-- `set_flags` stage: the S computation (`flags[0] == 'S'`). -/
def sfS (m : FMask) (d : Int) (rf : RegisterFile) : RegisterFile :=
  if m.s = .comp then
    (if pyand (pyshr d 7) 1 = 1 then rf.setflag .S else rf.resetflag .S)
  else rf

/-- `set_flags` stage: the Z computation (`flags[1] == 'Z'`). -/
def sfZ (m : FMask) (d : Int) (rf : RegisterFile) : RegisterFile :=
  if m.z = .comp then (if d = 0 then rf.setflag .Z else rf.resetflag .Z) else rf

/-- `set_flags` stage: the bit-5 copy (`flags[2] == '5'`). -/
def sfB5 (m : FMask) (d : Int) (rf : RegisterFile) : RegisterFile :=
  if m.b5 = .comp then
    (if pyand (pyshr d 5) 1 = 1 then rf.setflag .f5 else rf.resetflag .f5)
  else rf

/-- `set_flags` stage: the bit-3 copy (`flags[4] == '3'`). -/
def sfB3 (m : FMask) (d : Int) (rf : RegisterFile) : RegisterFile :=
  if m.b3 = .comp then
    (if pyand (pyshr d 3) 1 = 1 then rf.setflag .f3 else rf.resetflag .f3)
  else rf

/-- `set_flags` stage: index 5 — `'*'` copies iff2 into P, `'V'` sets V
iff the untruncated `D` is outside [-128, 127], `'P'` computes even
parity of the low byte. -/
def sfPV (m : FMask) (D d iff2 : Int) (rf : RegisterFile) : RegisterFile :=
  match m.pv with
  | .star => if iff2 = 1 then rf.setflag .P else rf.resetflag .P
  | .vee => if D > 127 ∨ D < -128 then rf.setflag .V else rf.resetflag .V
  | .pee => if parityLoop d.toNat = 0 then rf.setflag .P else rf.resetflag .P
  | _ => rf

/-- `set_flags` stage: the C computation (`flags[7] == 'C'`, from the
untruncated `D`). -/
def sfC (m : FMask) (D : Int) (rf : RegisterFile) : RegisterFile :=
  if m.c = .comp then
    (if D > 255 ∨ D < 0 then rf.setflag .C else rf.resetflag .C)
  else rf

/-- `set_flags` stage: the literal loop (`for n in range(0,7)`, char
`flags[7-n]` applied to bit `n`; index 5 literals are the PV slot). -/
def sfLits (m : FMask) (rf : RegisterFile) : RegisterFile :=
  let r7 := applyLit rf m.c 0
  let r8 := applyLit r7 m.n 1
  let r9 :=
    match m.pv with
    | .lit1 => { r8 with F := pyor r8.F (pyshl 1 2) }
    | .lit0 => { r8 with F := pyand r8.F (255 - pyshl 1 2) }
    | _ => r8
  let r10 := applyLit r9 m.b3 3
  let r11 := applyLit r10 m.h 4
  let r12 := applyLit r11 m.b5 5
  applyLit r12 m.z 6

/-- `set_flags(flags, key="value", source=None, value=None, dest=None)`.
Statement order mirrors the source: resolve `D`; `d = D & 0xFF`;
compute S, Z, 5, 3 from `d`; compute `*`/V/P; compute C from `D`;
apply the literal characters for bits 0–6; write `d` back to
`kwargs[key]` when `key` is not `None`; store `d` to `dest` when given. -/
def actSetFlags (m : FMask) (valueFn : Option (AState → List Int → Int))
    (key : Option KKey) (source : Option RegN) (dest : Option RegN) : Act :=
  fun st args =>
    let D : Int := resolveValue valueFn key source st args
    let d : Int := pyand D 255
    let r13 := sfLits m (sfC m D (sfPV m D d st.iff2 (sfB3 m d (sfB5 m d (sfZ m d (sfS m d st.reg))))))
    let kw2 :=
      match key with
      | some k => st.kw.put k d
      | none => st.kw
    let r14 :=
      match dest with
      | some rg => r13.set rg d
      | none => r13
    { st with reg := r14, kw := kw2 }

/-! ### Machine states (`pyz80/machinestates.py`)

Each Python machine state is a generator that yields once per T-state;
the embedding represents a state as a record with a `phase` counter and
the saved generator locals, and a stepper function that performs, on
each tick, exactly what the generator's body performs between two
yields.  `MachineState.clock` (one `next()` call, popping the state and
transferring its `kwargs` forward on `StopIteration`) becomes
`stepPipe`. -/

/-- A decode key: a single opcode byte, or a prefixed tuple of two or
three bytes. -/
inductive IKey where
  | one (b : Int)
  | two (a b : Int)
  | three (a b c : Int)
  deriving DecidableEq, Repr

/-- Errors surfaced by `clock()` (Python exceptions). -/
inductive Err where
  | unrecognisedInstruction (k : IKey)
  | nameErrorInterruptResponse
  | cpuStalled
  | pyError
  deriving DecidableEq, Repr

/-- `_OCF`: opcode fetch.  `pfx` holds the `prefix` argument
(`[]` = `None`, one byte, or a two-byte tuple); `key` and `left` are the
generator locals `inst` and the remaining extra ticks. -/
structure OCFst where
  pfx : List Int
  phase : Nat
  savedPC : Int
  key : IKey
  left : Nat
  kw : Kwargs

/-- `_OD`: operand fetch. -/
structure ODst where
  compound : Option (Int → Int → Int)
  action : Option Act
  key : KKey
  signed : Bool
  phase : Nat
  savedPC : Int
  data : Int
  kw : Kwargs

/-- `_MR`: memory read. -/
structure MRst where
  addrCfg : Option Int
  indirect : Option RegN
  compound : Option (Int → Int → Int)
  action : Option Act
  incaddr : Bool
  phase : Nat
  addr : Int
  data : Int
  kw : Kwargs

/-- `_MW`: memory write (`extra` T-states of padding after the write). -/
structure MWst where
  addrCfg : Option Int
  indirect : Option RegN
  valueCfg : Option Int
  source : Option RegN
  action : Option Act
  extraT : Nat
  phase : Nat
  addr : Int
  data : Int
  left : Nat
  kw : Kwargs

/-- `_SR`: stack read. -/
structure SRst where
  compound : Option (Int → Int → Int)
  action : Option Act
  extraT : Nat
  phase : Nat
  addr : Int
  data : Int
  left : Nat
  kw : Kwargs

/-- `_SW`: stack write (`SP` is decremented on the FIRST tick, the write
happens on the last). -/
structure SWst where
  source : Option RegN
  key : KKey
  extraT : Nat
  action : Option Act
  phase : Nat
  addr : Int
  left : Nat
  kw : Kwargs

/-- `_IO`: internal state (the source class is called `IO`); carries no
bus transaction.  `tfmFn` is the callable-`transform` form (applied to
the scratch slot `tkey`), `tfmMap` the dict form. -/
structure INst where
  ticks : Nat
  locked : Bool
  tkey : KKey
  tfmFn : Option (RegisterFile → Int → Int)
  tfmMap : List (KKey × (RegisterFile → Int → Int))
  action : Option Act
  phase : Nat
  left : Nat
  kw : Kwargs

/-- A machine state (one element of a pipeline). -/
inductive MState where
  | ocf (c : OCFst)
  | odS (c : ODst)
  | mrS (c : MRst)
  | mwS (c : MWst)
  | srS (c : SRst)
  | swS (c : SWst)
  | ioS (c : INst)

/-- `fetchlocked()`: every memory-touching state blocks a new opcode
fetch; for `IO` it is the `locked` flag. -/
def MState.fetchlocked : MState → Bool
  | .ocf _ => true
  | .odS _ => true
  | .mrS _ => true
  | .mwS _ => true
  | .srS _ => true
  | .swS _ => true
  | .ioS c => c.locked

/-- Replace a state's `kwargs` (the transfer
`self.pipeline[0].kwargs = self.kwargs` performed on pop). -/
def MState.withKw : MState → Kwargs → MState
  | .ocf c, k => .ocf { c with kw := k }
  | .odS c, k => .odS { c with kw := k }
  | .mrS c, k => .mrS { c with kw := k }
  | .mwS c, k => .mwS { c with kw := k }
  | .srS c, k => .srS { c with kw := k }
  | .swS c, k => .swS { c with kw := k }
  | .ioS c, k => .ioS { c with kw := k }

/-- A decode entry `(extra_ticks_for_OCF, immediate actions, states)`. -/
structure Entry where
  extraTicks : Nat
  actions : List Act
  states : List MState

/-- Memory (`MemoryBus()` with no mappings: one 64 KiB RAM page;
`read`/`write` index `address % 0x10000` and `write` stores
`data & 0xFF`). -/
def Mem := Int → Int

def membusRead (m : Mem) (a : Int) : Int := m (pymod a 65536)

def membusWrite (m : Mem) (a v : Int) : Mem :=
  fun x => if x = pymod a 65536 then pyand v 255 else m x

/-- `Z80CPU` (`pyz80/cpu.py`).  `pending` keeps only the `nmi` flag of
each latched interrupt — the `ack` payloads are never consumed because
`interrupt_response` does not exist in the source.  `tickCount` mirrors
`tick_count`. -/
structure CPU where
  reg : RegisterFile
  iff1 : Int
  iff2 : Int
  intFlag : Bool
  pending : List Bool
  interruptMode : Nat
  mem : Mem
  pipelines : List (List MState)
  tickCount : Nat

/-- View of the CPU handed to an action. -/
def CPU.toA (c : CPU) (kw : Kwargs) : AState := ⟨c.reg, c.iff2, kw, false⟩

/-- Run a list of immediate actions with no positional args
(`for action in actions: action(self)`). -/
def runActs (acts : List Act) (st : AState) : AState :=
  acts.foldl (fun s a => a s []) st

/-- Compose the decode key from an optional prefix and the fetched byte
(`inst = (prefix, inst)` / `tuple(list(prefix) + [inst])`).  Prefixes in
the table are at most two bytes, so the catch-all is unreachable. -/
def mkKey (pfx : List Int) (b : Int) : IKey :=
  match pfx with
  | [] => .one b
  | [a] => .two a b
  | [a, c] => .three a c b
  | _ => .one b

/-- Pop the head state and transfer its final `kwargs` onto the next
state (`MachineState.clock`'s `StopIteration` handler). -/
def popTransfer (k : Kwargs) (rest : List MState) : List MState :=
  match rest with
  | [] => []
  | h :: t => h.withKw k :: t

/-! ### The per-tick steppers

`decode_instruction` appears further below (it needs the opcode table);
the steppers take it as input would create a cycle, so the table lookup
function is declared first as a reference to the embedded table. -/

/-- Template constructors (the Python factories `OCF(...)`, `OD(...)`,
... return classes; calling one instantiates a fresh state with
`phase = 0` and empty `kwargs`). -/
def mkOCF (pfx : List Int) : MState := .ocf ⟨pfx, 0, 0, .one 0, 0, .empty⟩

def mkOD (compound : Option (Int → Int → Int)) (action : Option Act)
    (key : KKey) (signed : Bool) : MState :=
  .odS ⟨compound, action, key, signed, 0, 0, 0, .empty⟩

def mkMR (addrCfg : Option Int) (indirect : Option RegN)
    (compound : Option (Int → Int → Int)) (action : Option Act)
    (incaddr : Bool) : MState :=
  .mrS ⟨addrCfg, indirect, compound, action, incaddr, 0, 0, 0, .empty⟩

def mkMW (addrCfg : Option Int) (indirect : Option RegN) (valueCfg : Option Int)
    (source : Option RegN) (action : Option Act) (extraT : Nat) : MState :=
  .mwS ⟨addrCfg, indirect, valueCfg, source, action, extraT, 0, 0, 0, 0, .empty⟩

def mkSR (compound : Option (Int → Int → Int)) (action : Option Act)
    (extraT : Nat) : MState :=
  .srS ⟨compound, action, extraT, 0, 0, 0, 0, .empty⟩

def mkSW (source : Option RegN) (key : KKey) (extraT : Nat)
    (action : Option Act) : MState :=
  .swS ⟨source, key, extraT, action, 0, 0, 0, .empty⟩

def mkIO (ticks : Nat) (locked : Bool) (tkey : KKey)
    (tfmFn : Option (RegisterFile → Int → Int))
    (tfmMap : List (KKey × (RegisterFile → Int → Int)))
    (action : Option Act) : MState :=
  .ioS ⟨ticks, locked, tkey, tfmFn, tfmMap, action, 0, 0, .empty⟩

/-- `OD(...)`'s default `compound=high_after_low`: `(x << 8) | y`. -/
def highAfterLow (x y : Int) : Int := pyor (pyshl x 8) y

/-- The complete key set of `INSTRUCTION_STATES` paired with each
entry's `extra_ticks_for_OCF` (the first component of the entry
tuple), transcribed in source order. -/
def INSTRUCTION_KEY_EXTRAS : List (IKey × Nat) := [
  (IKey.one 0x00, 0),
  (IKey.one 0x01, 0),
  (IKey.one 0x02, 0),
  (IKey.one 0x03, 0),
  (IKey.one 0x04, 0),
  (IKey.one 0x05, 0),
  (IKey.one 0x06, 0),
  (IKey.one 0x07, 0),
  (IKey.one 0x08, 0),
  (IKey.one 0x09, 0),
  (IKey.one 0x0B, 0),
  (IKey.one 0x0C, 0),
  (IKey.one 0x0D, 0),
  (IKey.one 0x0E, 0),
  (IKey.one 0x0F, 0),
  (IKey.one 0x0A, 0),
  (IKey.one 0x10, 1),
  (IKey.one 0x11, 0),
  (IKey.one 0x12, 0),
  (IKey.one 0x13, 0),
  (IKey.one 0x14, 0),
  (IKey.one 0x15, 0),
  (IKey.one 0x16, 0),
  (IKey.one 0x17, 0),
  (IKey.one 0x18, 0),
  (IKey.one 0x19, 0),
  (IKey.one 0x1B, 0),
  (IKey.one 0x1A, 0),
  (IKey.one 0x1C, 0),
  (IKey.one 0x1D, 0),
  (IKey.one 0x1E, 0),
  (IKey.one 0x1F, 0),
  (IKey.one 0x20, 0),
  (IKey.one 0x21, 0),
  (IKey.one 0x22, 0),
  (IKey.one 0x23, 0),
  (IKey.one 0x24, 0),
  (IKey.one 0x25, 0),
  (IKey.one 0x26, 0),
  (IKey.one 0x27, 0),
  (IKey.one 0x28, 0),
  (IKey.one 0x29, 0),
  (IKey.one 0x2A, 0),
  (IKey.one 0x2B, 0),
  (IKey.one 0x2C, 0),
  (IKey.one 0x2D, 0),
  (IKey.one 0x2E, 0),
  (IKey.one 0x2F, 0),
  (IKey.one 0x30, 0),
  (IKey.one 0x31, 0),
  (IKey.one 0x32, 0),
  (IKey.one 0x33, 0),
  (IKey.one 0x34, 0),
  (IKey.one 0x35, 0),
  (IKey.one 0x36, 0),
  (IKey.one 0x37, 0),
  (IKey.one 0x38, 0),
  (IKey.one 0x39, 0),
  (IKey.one 0x3B, 0),
  (IKey.one 0x3C, 0),
  (IKey.one 0x3D, 0),
  (IKey.one 0x3A, 0),
  (IKey.one 0x3E, 0),
  (IKey.one 0x3F, 0),
  (IKey.one 0x40, 0),
  (IKey.one 0x41, 0),
  (IKey.one 0x42, 0),
  (IKey.one 0x43, 0),
  (IKey.one 0x44, 0),
  (IKey.one 0x45, 0),
  (IKey.one 0x46, 0),
  (IKey.one 0x47, 0),
  (IKey.one 0x48, 0),
  (IKey.one 0x49, 0),
  (IKey.one 0x4A, 0),
  (IKey.one 0x4B, 0),
  (IKey.one 0x4C, 0),
  (IKey.one 0x4D, 0),
  (IKey.one 0x4E, 0),
  (IKey.one 0x4F, 0),
  (IKey.one 0x50, 0),
  (IKey.one 0x51, 0),
  (IKey.one 0x52, 0),
  (IKey.one 0x53, 0),
  (IKey.one 0x54, 0),
  (IKey.one 0x55, 0),
  (IKey.one 0x56, 0),
  (IKey.one 0x57, 0),
  (IKey.one 0x58, 0),
  (IKey.one 0x59, 0),
  (IKey.one 0x5A, 0),
  (IKey.one 0x5B, 0),
  (IKey.one 0x5C, 0),
  (IKey.one 0x5D, 0),
  (IKey.one 0x5E, 0),
  (IKey.one 0x5F, 0),
  (IKey.one 0x60, 0),
  (IKey.one 0x61, 0),
  (IKey.one 0x62, 0),
  (IKey.one 0x63, 0),
  (IKey.one 0x64, 0),
  (IKey.one 0x65, 0),
  (IKey.one 0x66, 0),
  (IKey.one 0x67, 0),
  (IKey.one 0x68, 0),
  (IKey.one 0x69, 0),
  (IKey.one 0x6A, 0),
  (IKey.one 0x6B, 0),
  (IKey.one 0x6C, 0),
  (IKey.one 0x6D, 0),
  (IKey.one 0x6E, 0),
  (IKey.one 0x6F, 0),
  (IKey.one 0x70, 0),
  (IKey.one 0x71, 0),
  (IKey.one 0x72, 0),
  (IKey.one 0x73, 0),
  (IKey.one 0x74, 0),
  (IKey.one 0x75, 0),
  (IKey.one 0x77, 0),
  (IKey.one 0x78, 0),
  (IKey.one 0x79, 0),
  (IKey.one 0x7A, 0),
  (IKey.one 0x7B, 0),
  (IKey.one 0x7C, 0),
  (IKey.one 0x7D, 0),
  (IKey.one 0x7E, 0),
  (IKey.one 0x7F, 0),
  (IKey.one 0x80, 0),
  (IKey.one 0x81, 0),
  (IKey.one 0x82, 0),
  (IKey.one 0x83, 0),
  (IKey.one 0x84, 0),
  (IKey.one 0x85, 0),
  (IKey.one 0x86, 0),
  (IKey.one 0x87, 0),
  (IKey.one 0x88, 0),
  (IKey.one 0x89, 0),
  (IKey.one 0x8A, 0),
  (IKey.one 0x8B, 0),
  (IKey.one 0x8C, 0),
  (IKey.one 0x8D, 0),
  (IKey.one 0x8E, 0),
  (IKey.one 0x8F, 0),
  (IKey.one 0x90, 0),
  (IKey.one 0x91, 0),
  (IKey.one 0x92, 0),
  (IKey.one 0x93, 0),
  (IKey.one 0x94, 0),
  (IKey.one 0x95, 0),
  (IKey.one 0x96, 0),
  (IKey.one 0x97, 0),
  (IKey.one 0x98, 0),
  (IKey.one 0x99, 0),
  (IKey.one 0x9A, 0),
  (IKey.one 0x9B, 0),
  (IKey.one 0x9C, 0),
  (IKey.one 0x9D, 0),
  (IKey.one 0x9E, 0),
  (IKey.one 0x9F, 0),
  (IKey.one 0xA0, 0),
  (IKey.one 0xA1, 0),
  (IKey.one 0xA2, 0),
  (IKey.one 0xA3, 0),
  (IKey.one 0xA4, 0),
  (IKey.one 0xA5, 0),
  (IKey.one 0xA6, 0),
  (IKey.one 0xA7, 0),
  (IKey.one 0xA8, 0),
  (IKey.one 0xA9, 0),
  (IKey.one 0xAA, 0),
  (IKey.one 0xAB, 0),
  (IKey.one 0xAC, 0),
  (IKey.one 0xAD, 0),
  (IKey.one 0xAE, 0),
  (IKey.one 0xAF, 0),
  (IKey.one 0xB0, 0),
  (IKey.one 0xB1, 0),
  (IKey.one 0xB2, 0),
  (IKey.one 0xB3, 0),
  (IKey.one 0xB4, 0),
  (IKey.one 0xB5, 0),
  (IKey.one 0xB6, 0),
  (IKey.one 0xB7, 0),
  (IKey.one 0xB8, 0),
  (IKey.one 0xB9, 0),
  (IKey.one 0xBA, 0),
  (IKey.one 0xBB, 0),
  (IKey.one 0xBC, 0),
  (IKey.one 0xBD, 0),
  (IKey.one 0xBE, 0),
  (IKey.one 0xBF, 0),
  (IKey.one 0xC0, 1),
  (IKey.one 0xC1, 0),
  (IKey.one 0xC2, 0),
  (IKey.one 0xC3, 0),
  (IKey.one 0xC4, 0),
  (IKey.one 0xC5, 1),
  (IKey.one 0xC6, 0),
  (IKey.one 0xC8, 1),
  (IKey.one 0xC9, 0),
  (IKey.one 0xCA, 0),
  (IKey.one 0xCB, 0),
  (IKey.one 0xCC, 0),
  (IKey.one 0xCD, 0),
  (IKey.one 0xCE, 0),
  (IKey.one 0xD0, 1),
  (IKey.one 0xD1, 0),
  (IKey.one 0xD2, 0),
  (IKey.one 0xD4, 0),
  (IKey.one 0xD5, 1),
  (IKey.one 0xD6, 0),
  (IKey.one 0xD8, 1),
  (IKey.one 0xDA, 0),
  (IKey.one 0xDC, 0),
  (IKey.one 0xDE, 0),
  (IKey.one 0xD9, 0),
  (IKey.one 0xE0, 1),
  (IKey.one 0xE1, 0),
  (IKey.one 0xE2, 0),
  (IKey.one 0xE3, 0),
  (IKey.one 0xE4, 0),
  (IKey.one 0xE5, 1),
  (IKey.one 0xE6, 0),
  (IKey.one 0xE8, 1),
  (IKey.one 0xE9, 0),
  (IKey.one 0xEC, 0),
  (IKey.one 0xEE, 0),
  (IKey.one 0xEA, 0),
  (IKey.one 0xEB, 0),
  (IKey.one 0xED, 0),
  (IKey.one 0xDD, 0),
  (IKey.one 0xF0, 1),
  (IKey.one 0xF1, 0),
  (IKey.one 0xF2, 0),
  (IKey.one 0xF4, 0),
  (IKey.one 0xF5, 1),
  (IKey.one 0xF6, 0),
  (IKey.one 0xF8, 1),
  (IKey.one 0xF9, 0),
  (IKey.one 0xFA, 0),
  (IKey.one 0xFC, 0),
  (IKey.one 0xFD, 0),
  (IKey.one 0xFE, 0),
  (IKey.two 0xCB 0x00, 0),
  (IKey.two 0xCB 0x01, 0),
  (IKey.two 0xCB 0x02, 0),
  (IKey.two 0xCB 0x03, 0),
  (IKey.two 0xCB 0x04, 0),
  (IKey.two 0xCB 0x05, 0),
  (IKey.two 0xCB 0x06, 0),
  (IKey.two 0xCB 0x07, 0),
  (IKey.two 0xCB 0x08, 0),
  (IKey.two 0xCB 0x09, 0),
  (IKey.two 0xCB 0x0A, 0),
  (IKey.two 0xCB 0x0B, 0),
  (IKey.two 0xCB 0x0C, 0),
  (IKey.two 0xCB 0x0D, 0),
  (IKey.two 0xCB 0x0E, 0),
  (IKey.two 0xCB 0x0F, 0),
  (IKey.two 0xCB 0x10, 0),
  (IKey.two 0xCB 0x11, 0),
  (IKey.two 0xCB 0x12, 0),
  (IKey.two 0xCB 0x13, 0),
  (IKey.two 0xCB 0x14, 0),
  (IKey.two 0xCB 0x15, 0),
  (IKey.two 0xCB 0x16, 0),
  (IKey.two 0xCB 0x17, 0),
  (IKey.two 0xCB 0x18, 0),
  (IKey.two 0xCB 0x19, 0),
  (IKey.two 0xCB 0x1A, 0),
  (IKey.two 0xCB 0x1B, 0),
  (IKey.two 0xCB 0x1C, 0),
  (IKey.two 0xCB 0x1D, 0),
  (IKey.two 0xCB 0x1E, 0),
  (IKey.two 0xCB 0x1F, 0),
  (IKey.two 0xCB 0x20, 0),
  (IKey.two 0xCB 0x21, 0),
  (IKey.two 0xCB 0x22, 0),
  (IKey.two 0xCB 0x23, 0),
  (IKey.two 0xCB 0x24, 0),
  (IKey.two 0xCB 0x25, 0),
  (IKey.two 0xCB 0x26, 0),
  (IKey.two 0xCB 0x27, 0),
  (IKey.two 0xCB 0x28, 0),
  (IKey.two 0xCB 0x29, 0),
  (IKey.two 0xCB 0x2A, 0),
  (IKey.two 0xCB 0x2B, 0),
  (IKey.two 0xCB 0x2C, 0),
  (IKey.two 0xCB 0x2D, 0),
  (IKey.two 0xCB 0x2E, 0),
  (IKey.two 0xCB 0x2F, 0),
  (IKey.two 0xCB 0x30, 0),
  (IKey.two 0xCB 0x31, 0),
  (IKey.two 0xCB 0x32, 0),
  (IKey.two 0xCB 0x33, 0),
  (IKey.two 0xCB 0x34, 0),
  (IKey.two 0xCB 0x35, 0),
  (IKey.two 0xCB 0x36, 0),
  (IKey.two 0xCB 0x37, 0),
  (IKey.two 0xCB 0x38, 0),
  (IKey.two 0xCB 0x39, 0),
  (IKey.two 0xCB 0x3A, 0),
  (IKey.two 0xCB 0x3B, 0),
  (IKey.two 0xCB 0x3C, 0),
  (IKey.two 0xCB 0x3D, 0),
  (IKey.two 0xCB 0x3E, 0),
  (IKey.two 0xCB 0x3F, 0),
  (IKey.two 0xCB 0x40, 0),
  (IKey.two 0xCB 0x41, 0),
  (IKey.two 0xCB 0x42, 0),
  (IKey.two 0xCB 0x43, 0),
  (IKey.two 0xCB 0x44, 0),
  (IKey.two 0xCB 0x45, 0),
  (IKey.two 0xCB 0x46, 0),
  (IKey.two 0xCB 0x47, 0),
  (IKey.two 0xCB 0x48, 0),
  (IKey.two 0xCB 0x49, 0),
  (IKey.two 0xCB 0x4A, 0),
  (IKey.two 0xCB 0x4B, 0),
  (IKey.two 0xCB 0x4C, 0),
  (IKey.two 0xCB 0x4D, 0),
  (IKey.two 0xCB 0x4E, 0),
  (IKey.two 0xCB 0x4F, 0),
  (IKey.two 0xCB 0x50, 0),
  (IKey.two 0xCB 0x51, 0),
  (IKey.two 0xCB 0x52, 0),
  (IKey.two 0xCB 0x53, 0),
  (IKey.two 0xCB 0x54, 0),
  (IKey.two 0xCB 0x55, 0),
  (IKey.two 0xCB 0x56, 0),
  (IKey.two 0xCB 0x57, 0),
  (IKey.two 0xCB 0x58, 0),
  (IKey.two 0xCB 0x59, 0),
  (IKey.two 0xCB 0x5A, 0),
  (IKey.two 0xCB 0x5B, 0),
  (IKey.two 0xCB 0x5C, 0),
  (IKey.two 0xCB 0x5D, 0),
  (IKey.two 0xCB 0x5E, 0),
  (IKey.two 0xCB 0x5F, 0),
  (IKey.two 0xCB 0x60, 0),
  (IKey.two 0xCB 0x61, 0),
  (IKey.two 0xCB 0x62, 0),
  (IKey.two 0xCB 0x63, 0),
  (IKey.two 0xCB 0x64, 0),
  (IKey.two 0xCB 0x65, 0),
  (IKey.two 0xCB 0x66, 0),
  (IKey.two 0xCB 0x67, 0),
  (IKey.two 0xCB 0x68, 0),
  (IKey.two 0xCB 0x69, 0),
  (IKey.two 0xCB 0x6A, 0),
  (IKey.two 0xCB 0x6B, 0),
  (IKey.two 0xCB 0x6C, 0),
  (IKey.two 0xCB 0x6D, 0),
  (IKey.two 0xCB 0x6E, 0),
  (IKey.two 0xCB 0x6F, 0),
  (IKey.two 0xCB 0x70, 0),
  (IKey.two 0xCB 0x71, 0),
  (IKey.two 0xCB 0x72, 0),
  (IKey.two 0xCB 0x73, 0),
  (IKey.two 0xCB 0x74, 0),
  (IKey.two 0xCB 0x75, 0),
  (IKey.two 0xCB 0x76, 0),
  (IKey.two 0xCB 0x77, 0),
  (IKey.two 0xCB 0x78, 0),
  (IKey.two 0xCB 0x79, 0),
  (IKey.two 0xCB 0x7A, 0),
  (IKey.two 0xCB 0x7B, 0),
  (IKey.two 0xCB 0x7C, 0),
  (IKey.two 0xCB 0x7D, 0),
  (IKey.two 0xCB 0x7E, 0),
  (IKey.two 0xCB 0x7F, 0),
  (IKey.two 0xCB 0x80, 0),
  (IKey.two 0xCB 0x81, 0),
  (IKey.two 0xCB 0x82, 0),
  (IKey.two 0xCB 0x83, 0),
  (IKey.two 0xCB 0x84, 0),
  (IKey.two 0xCB 0x85, 0),
  (IKey.two 0xCB 0x86, 0),
  (IKey.two 0xCB 0x87, 0),
  (IKey.two 0xCB 0x88, 0),
  (IKey.two 0xCB 0x89, 0),
  (IKey.two 0xCB 0x8A, 0),
  (IKey.two 0xCB 0x8B, 0),
  (IKey.two 0xCB 0x8C, 0),
  (IKey.two 0xCB 0x8D, 0),
  (IKey.two 0xCB 0x8E, 0),
  (IKey.two 0xCB 0x8F, 0),
  (IKey.two 0xCB 0x90, 0),
  (IKey.two 0xCB 0x91, 0),
  (IKey.two 0xCB 0x92, 0),
  (IKey.two 0xCB 0x93, 0),
  (IKey.two 0xCB 0x94, 0),
  (IKey.two 0xCB 0x95, 0),
  (IKey.two 0xCB 0x96, 0),
  (IKey.two 0xCB 0x97, 0),
  (IKey.two 0xCB 0x98, 0),
  (IKey.two 0xCB 0x99, 0),
  (IKey.two 0xCB 0x9A, 0),
  (IKey.two 0xCB 0x9B, 0),
  (IKey.two 0xCB 0x9C, 0),
  (IKey.two 0xCB 0x9D, 0),
  (IKey.two 0xCB 0x9E, 0),
  (IKey.two 0xCB 0x9F, 0),
  (IKey.two 0xCB 0xA0, 0),
  (IKey.two 0xCB 0xA1, 0),
  (IKey.two 0xCB 0xA2, 0),
  (IKey.two 0xCB 0xA3, 0),
  (IKey.two 0xCB 0xA4, 0),
  (IKey.two 0xCB 0xA5, 0),
  (IKey.two 0xCB 0xA6, 0),
  (IKey.two 0xCB 0xA7, 0),
  (IKey.two 0xCB 0xA8, 0),
  (IKey.two 0xCB 0xA9, 0),
  (IKey.two 0xCB 0xAA, 0),
  (IKey.two 0xCB 0xAB, 0),
  (IKey.two 0xCB 0xAC, 0),
  (IKey.two 0xCB 0xAD, 0),
  (IKey.two 0xCB 0xAE, 0),
  (IKey.two 0xCB 0xAF, 0),
  (IKey.two 0xCB 0xB0, 0),
  (IKey.two 0xCB 0xB1, 0),
  (IKey.two 0xCB 0xB2, 0),
  (IKey.two 0xCB 0xB3, 0),
  (IKey.two 0xCB 0xB4, 0),
  (IKey.two 0xCB 0xB5, 0),
  (IKey.two 0xCB 0xB6, 0),
  (IKey.two 0xCB 0xB7, 0),
  (IKey.two 0xCB 0xB8, 0),
  (IKey.two 0xCB 0xB9, 0),
  (IKey.two 0xCB 0xBA, 0),
  (IKey.two 0xCB 0xBB, 0),
  (IKey.two 0xCB 0xBC, 0),
  (IKey.two 0xCB 0xBD, 0),
  (IKey.two 0xCB 0xBE, 0),
  (IKey.two 0xCB 0xBF, 0),
  (IKey.two 0xCB 0xC0, 0),
  (IKey.two 0xCB 0xC1, 0),
  (IKey.two 0xCB 0xC2, 0),
  (IKey.two 0xCB 0xC3, 0),
  (IKey.two 0xCB 0xC4, 0),
  (IKey.two 0xCB 0xC5, 0),
  (IKey.two 0xCB 0xC6, 0),
  (IKey.two 0xCB 0xC7, 0),
  (IKey.two 0xCB 0xC8, 0),
  (IKey.two 0xCB 0xC9, 0),
  (IKey.two 0xCB 0xCA, 0),
  (IKey.two 0xCB 0xCB, 0),
  (IKey.two 0xCB 0xCC, 0),
  (IKey.two 0xCB 0xCD, 0),
  (IKey.two 0xCB 0xCE, 0),
  (IKey.two 0xCB 0xCF, 0),
  (IKey.two 0xCB 0xD0, 0),
  (IKey.two 0xCB 0xD1, 0),
  (IKey.two 0xCB 0xD2, 0),
  (IKey.two 0xCB 0xD3, 0),
  (IKey.two 0xCB 0xD4, 0),
  (IKey.two 0xCB 0xD5, 0),
  (IKey.two 0xCB 0xD6, 0),
  (IKey.two 0xCB 0xD7, 0),
  (IKey.two 0xCB 0xD8, 0),
  (IKey.two 0xCB 0xD9, 0),
  (IKey.two 0xCB 0xDA, 0),
  (IKey.two 0xCB 0xDB, 0),
  (IKey.two 0xCB 0xDC, 0),
  (IKey.two 0xCB 0xDD, 0),
  (IKey.two 0xCB 0xDE, 0),
  (IKey.two 0xCB 0xDF, 0),
  (IKey.two 0xCB 0xE0, 0),
  (IKey.two 0xCB 0xE1, 0),
  (IKey.two 0xCB 0xE2, 0),
  (IKey.two 0xCB 0xE3, 0),
  (IKey.two 0xCB 0xE4, 0),
  (IKey.two 0xCB 0xE5, 0),
  (IKey.two 0xCB 0xE6, 0),
  (IKey.two 0xCB 0xE7, 0),
  (IKey.two 0xCB 0xE8, 0),
  (IKey.two 0xCB 0xE9, 0),
  (IKey.two 0xCB 0xEA, 0),
  (IKey.two 0xCB 0xEB, 0),
  (IKey.two 0xCB 0xEC, 0),
  (IKey.two 0xCB 0xED, 0),
  (IKey.two 0xCB 0xEE, 0),
  (IKey.two 0xCB 0xEF, 0),
  (IKey.two 0xCB 0xF0, 0),
  (IKey.two 0xCB 0xF1, 0),
  (IKey.two 0xCB 0xF2, 0),
  (IKey.two 0xCB 0xF3, 0),
  (IKey.two 0xCB 0xF4, 0),
  (IKey.two 0xCB 0xF5, 0),
  (IKey.two 0xCB 0xF6, 0),
  (IKey.two 0xCB 0xF7, 0),
  (IKey.two 0xCB 0xF8, 0),
  (IKey.two 0xCB 0xF9, 0),
  (IKey.two 0xCB 0xFA, 0),
  (IKey.two 0xCB 0xFB, 0),
  (IKey.two 0xCB 0xFC, 0),
  (IKey.two 0xCB 0xFD, 0),
  (IKey.two 0xCB 0xFE, 0),
  (IKey.two 0xCB 0xFF, 0),
  (IKey.two 0xDD 0x09, 0),
  (IKey.two 0xDD 0x19, 0),
  (IKey.two 0xDD 0x29, 0),
  (IKey.two 0xDD 0x39, 0),
  (IKey.two 0xDD 0x21, 0),
  (IKey.two 0xDD 0x22, 0),
  (IKey.two 0xDD 0x23, 0),
  (IKey.two 0xDD 0x2A, 0),
  (IKey.two 0xDD 0x2B, 0),
  (IKey.two 0xDD 0x34, 0),
  (IKey.two 0xDD 0x35, 0),
  (IKey.two 0xDD 0x36, 0),
  (IKey.two 0xDD 0x46, 0),
  (IKey.two 0xDD 0x4E, 0),
  (IKey.two 0xDD 0x56, 0),
  (IKey.two 0xDD 0x5E, 0),
  (IKey.two 0xDD 0x66, 0),
  (IKey.two 0xDD 0x6E, 0),
  (IKey.two 0xDD 0x70, 0),
  (IKey.two 0xDD 0x71, 0),
  (IKey.two 0xDD 0x72, 0),
  (IKey.two 0xDD 0x73, 0),
  (IKey.two 0xDD 0x74, 0),
  (IKey.two 0xDD 0x75, 0),
  (IKey.two 0xDD 0x77, 0),
  (IKey.two 0xDD 0x7E, 0),
  (IKey.two 0xDD 0x86, 0),
  (IKey.two 0xDD 0x8E, 0),
  (IKey.two 0xDD 0x96, 0),
  (IKey.two 0xDD 0x9E, 0),
  (IKey.two 0xDD 0xA6, 0),
  (IKey.two 0xDD 0xAE, 0),
  (IKey.two 0xDD 0xB6, 0),
  (IKey.two 0xDD 0xBE, 0),
  (IKey.two 0xDD 0xCB, 0),
  (IKey.two 0xDD 0xE1, 0),
  (IKey.two 0xDD 0xE3, 0),
  (IKey.two 0xDD 0xE5, 1),
  (IKey.two 0xDD 0xE9, 0),
  (IKey.two 0xDD 0xF9, 0),
  (IKey.two 0xED 0x42, 0),
  (IKey.two 0xED 0x43, 0),
  (IKey.two 0xED 0x44, 0),
  (IKey.two 0xED 0x45, 0),
  (IKey.two 0xED 0x47, 0),
  (IKey.two 0xED 0x4B, 0),
  (IKey.two 0xED 0x4A, 0),
  (IKey.two 0xED 0x4D, 0),
  (IKey.two 0xED 0x4F, 0),
  (IKey.two 0xED 0x52, 0),
  (IKey.two 0xED 0x53, 0),
  (IKey.two 0xED 0x57, 0),
  (IKey.two 0xED 0x5A, 0),
  (IKey.two 0xED 0x5B, 0),
  (IKey.two 0xED 0x5F, 0),
  (IKey.two 0xED 0x62, 0),
  (IKey.two 0xED 0x67, 0),
  (IKey.two 0xED 0x6A, 0),
  (IKey.two 0xED 0x6F, 0),
  (IKey.two 0xED 0x72, 0),
  (IKey.two 0xED 0x73, 0),
  (IKey.two 0xED 0x7A, 0),
  (IKey.two 0xED 0x7B, 0),
  (IKey.two 0xED 0xA0, 0),
  (IKey.two 0xED 0xA1, 0),
  (IKey.two 0xED 0xA8, 0),
  (IKey.two 0xED 0xA9, 0),
  (IKey.two 0xED 0xB0, 0),
  (IKey.two 0xED 0xB1, 0),
  (IKey.two 0xED 0xB8, 0),
  (IKey.two 0xED 0xB9, 0),
  (IKey.two 0xFD 0x09, 0),
  (IKey.two 0xFD 0x19, 0),
  (IKey.two 0xFD 0x23, 0),
  (IKey.two 0xFD 0x29, 0),
  (IKey.two 0xFD 0x2B, 0),
  (IKey.two 0xFD 0x39, 0),
  (IKey.two 0xFD 0x21, 0),
  (IKey.two 0xFD 0x22, 0),
  (IKey.two 0xFD 0x2A, 0),
  (IKey.two 0xFD 0x34, 0),
  (IKey.two 0xFD 0x35, 0),
  (IKey.two 0xFD 0x36, 0),
  (IKey.two 0xFD 0x46, 0),
  (IKey.two 0xFD 0x4E, 0),
  (IKey.two 0xFD 0x56, 0),
  (IKey.two 0xFD 0x5E, 0),
  (IKey.two 0xFD 0x66, 0),
  (IKey.two 0xFD 0x6E, 0),
  (IKey.two 0xFD 0x70, 0),
  (IKey.two 0xFD 0x71, 0),
  (IKey.two 0xFD 0x72, 0),
  (IKey.two 0xFD 0x73, 0),
  (IKey.two 0xFD 0x74, 0),
  (IKey.two 0xFD 0x75, 0),
  (IKey.two 0xFD 0x77, 0),
  (IKey.two 0xFD 0x7E, 0),
  (IKey.two 0xFD 0x86, 0),
  (IKey.two 0xFD 0x8E, 0),
  (IKey.two 0xFD 0x96, 0),
  (IKey.two 0xFD 0x9E, 0),
  (IKey.two 0xFD 0xA6, 0),
  (IKey.two 0xFD 0xAE, 0),
  (IKey.two 0xFD 0xB6, 0),
  (IKey.two 0xFD 0xBE, 0),
  (IKey.two 0xFD 0xCB, 0),
  (IKey.two 0xFD 0xE1, 0),
  (IKey.two 0xFD 0xE3, 0),
  (IKey.two 0xFD 0xE5, 1),
  (IKey.two 0xFD 0xE9, 0),
  (IKey.two 0xFD 0xF9, 0),
  (IKey.three 0xDD 0xCB 0x06, 0),
  (IKey.three 0xDD 0xCB 0x0E, 0),
  (IKey.three 0xDD 0xCB 0x16, 0),
  (IKey.three 0xDD 0xCB 0x1E, 0),
  (IKey.three 0xDD 0xCB 0x26, 0),
  (IKey.three 0xDD 0xCB 0x2E, 0),
  (IKey.three 0xDD 0xCB 0x36, 0),
  (IKey.three 0xDD 0xCB 0x3E, 0),
  (IKey.three 0xDD 0xCB 0x46, 0),
  (IKey.three 0xDD 0xCB 0x4E, 0),
  (IKey.three 0xDD 0xCB 0x56, 0),
  (IKey.three 0xDD 0xCB 0x5E, 0),
  (IKey.three 0xDD 0xCB 0x66, 0),
  (IKey.three 0xDD 0xCB 0x6E, 0),
  (IKey.three 0xDD 0xCB 0x76, 0),
  (IKey.three 0xDD 0xCB 0x7E, 0),
  (IKey.three 0xDD 0xCB 0x86, 0),
  (IKey.three 0xDD 0xCB 0x8E, 0),
  (IKey.three 0xDD 0xCB 0x96, 0),
  (IKey.three 0xDD 0xCB 0x9E, 0),
  (IKey.three 0xDD 0xCB 0xA6, 0),
  (IKey.three 0xDD 0xCB 0xAE, 0),
  (IKey.three 0xDD 0xCB 0xB6, 0),
  (IKey.three 0xDD 0xCB 0xBE, 0),
  (IKey.three 0xDD 0xCB 0xC6, 0),
  (IKey.three 0xDD 0xCB 0xCE, 0),
  (IKey.three 0xDD 0xCB 0xD6, 0),
  (IKey.three 0xDD 0xCB 0xDE, 0),
  (IKey.three 0xDD 0xCB 0xE6, 0),
  (IKey.three 0xDD 0xCB 0xEE, 0),
  (IKey.three 0xDD 0xCB 0xF6, 0),
  (IKey.three 0xDD 0xCB 0xFE, 0),
  (IKey.three 0xFD 0xCB 0x06, 0),
  (IKey.three 0xFD 0xCB 0x0E, 0),
  (IKey.three 0xFD 0xCB 0x16, 0),
  (IKey.three 0xFD 0xCB 0x1E, 0),
  (IKey.three 0xFD 0xCB 0x26, 0),
  (IKey.three 0xFD 0xCB 0x2E, 0),
  (IKey.three 0xFD 0xCB 0x36, 0),
  (IKey.three 0xFD 0xCB 0x3E, 0),
  (IKey.three 0xFD 0xCB 0x46, 0),
  (IKey.three 0xFD 0xCB 0x4E, 0),
  (IKey.three 0xFD 0xCB 0x56, 0),
  (IKey.three 0xFD 0xCB 0x5E, 0),
  (IKey.three 0xFD 0xCB 0x66, 0),
  (IKey.three 0xFD 0xCB 0x6E, 0),
  (IKey.three 0xFD 0xCB 0x76, 0),
  (IKey.three 0xFD 0xCB 0x7E, 0),
  (IKey.three 0xFD 0xCB 0x86, 0),
  (IKey.three 0xFD 0xCB 0x8E, 0),
  (IKey.three 0xFD 0xCB 0x96, 0),
  (IKey.three 0xFD 0xCB 0x9E, 0),
  (IKey.three 0xFD 0xCB 0xA6, 0),
  (IKey.three 0xFD 0xCB 0xAE, 0),
  (IKey.three 0xFD 0xCB 0xB6, 0),
  (IKey.three 0xFD 0xCB 0xBE, 0),
  (IKey.three 0xFD 0xCB 0xC6, 0),
  (IKey.three 0xFD 0xCB 0xCE, 0),
  (IKey.three 0xFD 0xCB 0xD6, 0),
  (IKey.three 0xFD 0xCB 0xDE, 0),
  (IKey.three 0xFD 0xCB 0xE6, 0),
  (IKey.three 0xFD 0xCB 0xEE, 0),
  (IKey.three 0xFD 0xCB 0xF6, 0),
  (IKey.three 0xFD 0xCB 0xFE, 0)
]

/-- The key set of the opcode table. -/
def INSTRUCTION_KEYS : List IKey := INSTRUCTION_KEY_EXTRAS.map Prod.fst

/-! ### The embedded opcode-table entries

`INSTRUCTION_STATES` has 674 entries; the ones below are the entries the
theorems execute, transcribed verbatim.  The full key set (with each
entry's extra-tick count) is `INSTRUCTION_KEY_EXTRAS` above. -/

/-- Mask `"SZ5-3V0C"` (also `"SZ5H3V0C"`: the `'H'` letter is inert in
`set_flags`). -/
def mSZ53V0C : FMask := ⟨.comp, .comp, .comp, .keep, .comp, .vee, .lit0, .comp⟩

/-- Mask `"SZ5H3V1C"`. -/
def mSZ53V1C : FMask := ⟨.comp, .comp, .comp, .keep, .comp, .vee, .lit1, .comp⟩

/-- Mask `"SZ5-3V0-"`. -/
def mSZ53V0 : FMask := ⟨.comp, .comp, .comp, .keep, .comp, .vee, .lit0, .keep⟩

/-- Mask `"SZ5-3V1-"`. -/
def mSZ53V1 : FMask := ⟨.comp, .comp, .comp, .keep, .comp, .vee, .lit1, .keep⟩

/-- Mask `"SZ513V11"` (NEG). -/
def mNEG : FMask := ⟨.comp, .comp, .comp, .lit1, .comp, .vee, .lit1, .lit1⟩

/-- Mask `"--50310-"` (LDI/LDD/LDIR/LDDR). -/
def mLDI : FMask := ⟨.keep, .keep, .comp, .lit0, .comp, .lit1, .lit0, .keep⟩

/-- `0x00 : (0, [], [])` — NOP. -/
def entryNOP : Entry := ⟨0, [], []⟩

/-- `0x04` — INC B: `force_flag('H', λ st: 1 if (B & 0xF) + 1 > 0xF else 0)`,
`set_flags("SZ5-3V0-", value=λ st: B + 1, key="value")`, `LDr('B')`. -/
def entryINCB : Entry :=
  ⟨0, [actForceFlag .H (fun s _ => if pyand s.reg.B 15 + 1 > 15 then 1 else 0),
       actSetFlags mSZ53V0 (some (fun s _ => s.reg.B + 1)) (some .value) none none,
       actLDr .B none .value], []⟩

/-- `0x05` — DEC B: `force_flag('H', λ st: 1 if (B & 0xF) - 1 < 0 else 0)`,
`set_flags("SZ5-3V1-", value=λ st: B - 1, key="value")`, `LDr('B')`. -/
def entryDECB : Entry :=
  ⟨0, [actForceFlag .H (fun s _ => if pyand s.reg.B 15 - 1 < 0 then 1 else 0),
       actSetFlags mSZ53V1 (some (fun s _ => s.reg.B - 1)) (some .value) none none,
       actLDr .B none .value], []⟩

/-- `0x37` — SCF: `LDr('F', value=λ st: (F & 0xC4) | (A & 0x28) | 0x01)`. -/
def entrySCF : Entry :=
  ⟨0, [actLDr .F (some (fun s _ =>
        pyor (pyor (pyand s.reg.F 0xC4) (pyand s.reg.A 0x28)) 0x01)) .value], []⟩

/-- `0x3F` — CCF: `LDr('F', value=λ st: (F & 0xEC) | (~F & 0x11))`. -/
def entryCCF : Entry :=
  ⟨0, [actLDr .F (some (fun s _ =>
        pyor (pyand s.reg.F 0xEC) (pyand (pynot s.reg.F) 0x11))) .value], []⟩

/-- `0x80` — ADD B. -/
def entryADDB : Entry :=
  ⟨0, [actForceFlag .H (fun s _ =>
         if pyand s.reg.A 15 + pyand s.reg.B 15 > 15 then 1 else 0),
       actSetFlags mSZ53V0C (some (fun s _ => s.reg.A + s.reg.B)) (some .value) none none,
       actLDr .A none .value], []⟩

/-- `0x88` — ADC B. -/
def entryADCB : Entry :=
  ⟨0, [actForceFlag .H (fun s _ =>
         if pyand s.reg.A 15 + pyand s.reg.B 15 + s.reg.getflag .C > 15 then 1 else 0),
       actSetFlags mSZ53V0C
         (some (fun s _ => s.reg.A + s.reg.B + s.reg.getflag .C)) (some .value) none none,
       actLDr .A none .value], []⟩

/-- `0x90` — SUB B. -/
def entrySUBB : Entry :=
  ⟨0, [actForceFlag .H (fun s _ =>
         if pyand s.reg.A 15 - pyand s.reg.B 15 < 0 then 1 else 0),
       actSetFlags mSZ53V1C (some (fun s _ => s.reg.A - s.reg.B)) (some .value) none none,
       actLDr .A none .value], []⟩

/-- `0x98` — SBC B. -/
def entrySBCB : Entry :=
  ⟨0, [actForceFlag .H (fun s _ =>
         if pyand s.reg.A 15 - pyand s.reg.B 15 - s.reg.getflag .C < 0 then 1 else 0),
       actSetFlags mSZ53V1C
         (some (fun s _ => s.reg.A - s.reg.B - s.reg.getflag .C)) (some .value) none none,
       actLDr .A none .value], []⟩

/-- `0xB8` — CP B (flags only, A is not written back). -/
def entryCPB : Entry :=
  ⟨0, [actSetFlags mSZ53V1C (some (fun s _ => s.reg.A - s.reg.B)) (some .value) none none],
   []⟩

/-- `(0xED, 0x44)` — NEG:
`set_flags("SZ513V11", value=λ st: (-A) & 0xFF, dest='A')`. -/
def entryNEG : Entry :=
  ⟨0, [actSetFlags mNEG (some (fun s _ => pyand (-s.reg.A) 0xFF)) (some .value) none (some .A)],
   []⟩

/-- `0xC1 / 0xD1 / 0xE1 / 0xF1` — POP rr: `[ SR(), SR(action=LDr(rr)) ]`. -/
def entryPOP (rr : RegN) : Entry :=
  ⟨0, [], [mkSR (some highAfterLow) none 0,
           mkSR (some highAfterLow) (some (actLDr rr none .value)) 0]⟩

/-- `0xC5 / 0xD5 / 0xE5 / 0xF5 / (DD,E5) / (FD,E5)` — PUSH:
`(1, [], [ SW(source=hi), SW(source=lo) ])`. -/
def entryPUSH (hi lo : RegN) : Entry :=
  ⟨1, [], [mkSW (some hi) .value 0 none, mkSW (some lo) .value 0 none]⟩

/-- `0xCB/0xDD/0xED/0xFD` — prefix byte: `(0, [], [ OCF(prefix=b) ])`. -/
def entryPrefix (b : Int) : Entry := ⟨0, [], [mkOCF [b]]⟩

/-- The trailing action of LDI/LDIR's MW state (`do_each(...)`). -/
def ldirMWAction : Act :=
  actSeq [actSetFlags mLDI
            (some (fun s _ => (s.kw.get .value).getD 0 + s.reg.A)) (some .value) none none,
          actInc .HL,
          actInc .DE,
          actDec .BC,
          actOnZero .BC (actClearFlag .V),
          actOnZero .BC actEarlyAbort]

/-- `(0xED, 0xB0)` — LDIR: `[ MR(indirect="HL"), MW(indirect="DE", extra=2,
action=do_each(set_flags("--50310-", ...), inc HL, inc DE, dec BC,
on_zero(BC, clear_flag(V)), on_zero(BC, early_abort()))),
IO(5, True, action=do_each(dec PC, dec PC)) ]`. -/
def entryLDIR : Entry :=
  ⟨0, [], [mkMR none (some .HL) (some highAfterLow) none true,
           mkMW none (some .DE) none none (some ldirMWAction) 2,
           mkIO 5 true .value none [] (some (actSeq [actDec .PC, actDec .PC]))]⟩

/-- The embedded part of `INSTRUCTION_STATES`, keyed like the source
dict.  Keys outside this subset decode to `none`; of those, the keys
actually present in the source table are listed (with their extra-tick
counts) in `INSTRUCTION_KEY_EXTRAS` — no theorem below executes one of
them. -/
def INSTRUCTION_STATES_embedded (k : IKey) : Option Entry :=
  match k with
  | .one 0x00 => some entryNOP
  | .one 0x04 => some entryINCB
  | .one 0x05 => some entryDECB
  | .one 0x37 => some entrySCF
  | .one 0x3F => some entryCCF
  | .one 0x80 => some entryADDB
  | .one 0x88 => some entryADCB
  | .one 0x90 => some entrySUBB
  | .one 0x98 => some entrySBCB
  | .one 0xB8 => some entryCPB
  | .one 0xC1 => some (entryPOP .BC)
  | .one 0xC5 => some (entryPUSH .B .C)
  | .one 0xD1 => some (entryPOP .DE)
  | .one 0xD5 => some (entryPUSH .D .E)
  | .one 0xE1 => some (entryPOP .HL)
  | .one 0xE5 => some (entryPUSH .H .L)
  | .one 0xF1 => some (entryPOP .AF)
  | .one 0xF5 => some (entryPUSH .A .F)
  | .one 0xDD => some (entryPrefix 0xDD)
  | .one 0xED => some (entryPrefix 0xED)
  | .one 0xFD => some (entryPrefix 0xFD)
  | .two 0xDD 0xE1 => some (entryPOP .IX)
  | .two 0xDD 0xE5 => some (entryPUSH .IXH .IXL)
  | .two 0xFD 0xE1 => some (entryPOP .IY)
  | .two 0xFD 0xE5 => some (entryPUSH .IYH .IYL)
  | .two 0xED 0x44 => some entryNEG
  | .two 0xED 0xB0 => some entryLDIR
  | _ => none

/-- `decode_instruction(instruction)`: table lookup; a missing key
raises `UnrecognisedInstructionError` (modelled by `none`, turned into
the error by the OCF stepper). -/
def decode_instruction (k : IKey) : Option Entry := INSTRUCTION_STATES_embedded k

/-! ### One tick of the head machine state (`MachineState.clock`) -/

/-- Conclude a state: run its optional `(state, D)` action, then pop and
transfer the final `kwargs`; `early_abort` truncates the tail first. -/
def concludeWith (c : CPU) (kw : Kwargs) (action : Option Act) (arg : List Int)
    (rest : List MState) : CPU × List MState :=
  let a1 :=
    match action with
    | some f => f ⟨c.reg, c.iff2, kw, false⟩ arg
    | none => ⟨c.reg, c.iff2, kw, false⟩
  ({ c with reg := a1.reg }, popTransfer a1.kw (if a1.abortFlag then [] else rest))

/-- One tick of an `_OCF` state (`_OCF.run`).  Saved `PC` on the first
tick, the memory read on the second, decode + `PC = PC + 1` on the
third, then the `extra_clocks - 1` loop, then the conclusion: extend the
pipeline with the entry's (freshly instantiated) states and run the
immediate actions. -/
def stepOCF (c : CPU) (o : OCFst) (rest : List MState) :
    Except Err (CPU × List MState) :=
  match o.phase with
  | 0 => .ok (c, .ocf { o with savedPC := c.reg.PC, phase := 1 } :: rest)
  | 1 =>
    let b := membusRead c.mem o.savedPC
    .ok (c, .ocf { o with key := mkKey o.pfx b, phase := 2 } :: rest)
  | 2 =>
    match decode_instruction o.key with
    | none => .error (.unrecognisedInstruction o.key)
    | some e =>
      .ok ({ c with reg := c.reg.set .PC (o.savedPC + 1) },
           .ocf { o with left := e.extraTicks - 1, phase := 3 } :: rest)
  | _ =>
    if 0 < o.left then
      .ok (c, .ocf { o with left := o.left - 1 } :: rest)
    else
      match decode_instruction o.key with
      | none => .error (.unrecognisedInstruction o.key)
      | some e =>
        let a1 := runActs e.actions ⟨c.reg, c.iff2, o.kw, false⟩
        let tail := if a1.abortFlag then [] else rest ++ e.states
        .ok ({ c with reg := a1.reg }, popTransfer a1.kw tail)

/-- One tick of an `_OD` state (`_OD.run`). -/
def stepOD (c : CPU) (o : ODst) (rest : List MState) :
    Except Err (CPU × List MState) :=
  match o.phase with
  | 0 => .ok (c, .odS { o with savedPC := c.reg.PC, phase := 1 } :: rest)
  | 1 =>
    let d0 := membusRead c.mem o.savedPC
    let d1 := if o.signed ∧ 0x80 ≤ d0 then d0 - 0x100 else d0
    .ok (c, .odS { o with data := d1, phase := 2 } :: rest)
  | _ =>
    let c2 := { c with reg := c.reg.set .PC (o.savedPC + 1) }
    let d2 :=
      match o.kw.get o.key, o.compound with
      | some old, some f => f o.data old
      | _, _ => o.data
    match o.action with
    | some f =>
      let a1 := f ⟨c2.reg, c2.iff2, o.kw, false⟩ [d2]
      .ok ({ c2 with reg := a1.reg },
           popTransfer a1.kw (if a1.abortFlag then [] else rest))
    | none => .ok (c2, popTransfer (o.kw.put o.key d2) rest)

/-- One tick of an `_MR` state (`_MR.run`). -/
def stepMR (c : CPU) (o : MRst) (rest : List MState) :
    Except Err (CPU × List MState) :=
  match o.phase with
  | 0 =>
    match o.addrCfg with
    | some a => .ok (c, .mrS { o with addr := a, phase := 1 } :: rest)
    | none =>
      match o.indirect with
      | some r => .ok (c, .mrS { o with addr := c.reg.get r, phase := 1 } :: rest)
      | none =>
        match o.kw.address with
        | some a => .ok (c, .mrS { o with addr := a, phase := 1 } :: rest)
        | none => .error .pyError
  | 1 => .ok (c, .mrS { o with data := membusRead c.mem o.addr, phase := 2 } :: rest)
  | _ =>
    let d2 :=
      match o.kw.value, o.compound with
      | some old, some f => f o.data old
      | _, _ => o.data
    let kw1 := if o.incaddr then o.kw.put .address (o.addr + 1) else o.kw
    match o.action with
    | some f =>
      let a1 := f ⟨c.reg, c.iff2, kw1, false⟩ [d2]
      .ok ({ c with reg := a1.reg },
           popTransfer a1.kw (if a1.abortFlag then [] else rest))
    | none => .ok (c, popTransfer (kw1.put .value d2) rest)

/-- One tick of an `_MW` state (`_MW.run`).  The bus write happens on
the third tick, before any `extra` padding ticks; the optional action
fires on the final tick. -/
def stepMW (c : CPU) (o : MWst) (rest : List MState) :
    Except Err (CPU × List MState) :=
  match o.phase with
  | 0 =>
    match o.addrCfg with
    | some a => .ok (c, .mwS { o with addr := a, phase := 1 } :: rest)
    | none =>
      match o.indirect with
      | some r => .ok (c, .mwS { o with addr := c.reg.get r, phase := 1 } :: rest)
      | none =>
        match o.kw.address with
        | some a => .ok (c, .mwS { o with addr := a, phase := 1 } :: rest)
        | none => .error .pyError
  | 1 =>
    match o.valueCfg with
    | some v => .ok (c, .mwS { o with data := v, phase := 2 } :: rest)
    | none =>
      match o.source with
      | some r => .ok (c, .mwS { o with data := c.reg.get r, phase := 2 } :: rest)
      | none =>
        match o.kw.value with
        | some v => .ok (c, .mwS { o with data := v, phase := 2 } :: rest)
        | none => .error .pyError
  | 2 =>
    let c2 := { c with mem := membusWrite c.mem o.addr o.data }
    let kw1 := o.kw.put .address (o.addr + 1)
    if o.extraT = 0 then
      .ok (concludeWith c2 kw1 o.action [o.data] rest)
    else
      .ok (c2, .mwS { o with kw := kw1, left := o.extraT - 1, phase := 3 } :: rest)
  | _ =>
    if 0 < o.left then
      .ok (c, .mwS { o with left := o.left - 1 } :: rest)
    else
      .ok (concludeWith c o.kw o.action [o.data] rest)

/-- One tick of an `_SR` state (`_SR.run`): address from SP on the first
tick, read on the second, `extra` padding, then compound + store +
`SP += 1` + action on the final tick. -/
def stepSR (c : CPU) (o : SRst) (rest : List MState) :
    Except Err (CPU × List MState) :=
  match o.phase with
  | 0 => .ok (c, .srS { o with addr := c.reg.SP, phase := 1 } :: rest)
  | 1 =>
    .ok (c, .srS { o with data := membusRead c.mem o.addr, left := o.extraT,
                          phase := 2 } :: rest)
  | _ =>
    if 0 < o.left then
      .ok (c, .srS { o with left := o.left - 1 } :: rest)
    else
      let d2 :=
        match o.kw.value, o.compound with
        | some old, some f => f o.data old
        | _, _ => o.data
      let kw1 := o.kw.put .value d2
      let c2 := { c with reg := c.reg.set .SP (c.reg.SP + 1) }
      .ok (concludeWith c2 kw1 o.action [d2] rest)

/-- One tick of an `_SW` state (`_SW.run`): `SP -= 1` on the FIRST tick,
`extra` padding, address capture, then the write + action on the final
tick.  A missing `value` scratch slot is the source's `KeyError`. -/
def stepSW (c : CPU) (o : SWst) (rest : List MState) :
    Except Err (CPU × List MState) :=
  match o.phase with
  | 0 =>
    .ok ({ c with reg := c.reg.set .SP (c.reg.SP - 1) },
         .swS { o with left := o.extraT, phase := 1 } :: rest)
  | 1 =>
    if 0 < o.left then
      .ok (c, .swS { o with left := o.left - 1 } :: rest)
    else
      .ok (c, .swS { o with addr := c.reg.SP, phase := 2 } :: rest)
  | _ =>
    let d? : Option Int :=
      match o.source with
      | some r => some (c.reg.get r)
      | none => o.kw.get o.key
    match d? with
    | none => .error .pyError
    | some d =>
      let c2 := { c with mem := membusWrite c.mem o.addr d }
      .ok (concludeWith c2 o.kw o.action [d] rest)

/-- Apply an `_IO` state's `transform` to the present scratch slots
(`for key in self.kwargs: ...`).  The transforms in the table are
singleton dicts or a callable on one key, so the iteration order of the
Python dict cannot matter. -/
def applyTfm (reg : RegisterFile) (o : INst) (kw : Kwargs) : Kwargs :=
  let one := fun (kw1 : Kwargs) (k : KKey) =>
    match kw1.get k with
    | none => kw1
    | some v =>
      match o.tfmFn with
      | some f => if k = o.tkey then kw1.put k (f reg v) else kw1
      | none =>
        match o.tfmMap.lookup k with
        | some f => kw1.put k (f reg v)
        | none => kw1
  [KKey.value, KKey.address, KKey.target, KKey.summand, KKey.keyH,
   KKey.keyL].foldl one kw

/-- One tick of an `_IO` state (`_IO.run`): transforms on the first
tick, `ticks - 1` yields in total, the action on the final tick. -/
def stepIO (c : CPU) (o : INst) (rest : List MState) :
    Except Err (CPU × List MState) :=
  match o.phase with
  | 0 =>
    let kw1 := applyTfm c.reg o o.kw
    if o.ticks ≤ 1 then
      .ok (concludeWith c kw1 o.action [] rest)
    else
      .ok (c, .ioS { o with kw := kw1, left := o.ticks - 1, phase := 1 } :: rest)
  | _ =>
    if 1 < o.left then
      .ok (c, .ioS { o with left := o.left - 1 } :: rest)
    else
      .ok (concludeWith c o.kw o.action [] rest)

/-- `pipeline[0].clock(pipeline)`: one tick of the head state.  An empty
pipeline would be a Python `IndexError`. -/
def stepPipe (c : CPU) (p : List MState) : Except Err (CPU × List MState) :=
  match p with
  | [] => .error .pyError
  | .ocf o :: rest => stepOCF c o rest
  | .odS o :: rest => stepOD c o rest
  | .mrS o :: rest => stepMR c o rest
  | .mwS o :: rest => stepMW c o rest
  | .srS o :: rest => stepSR c o rest
  | .swS o :: rest => stepSW c o rest
  | .ioS o :: rest => stepIO c o rest

/-! ### The CPU clock (`pyz80/cpu.py`) -/

/-- The dispatch loop `for pipeline in self.pipelines:
pipeline[0].clock(pipeline); self.tick_count += 1`. -/
def dispatchList (c : CPU) : List (List MState) → Except Err (CPU × List (List MState))
  | [] => .ok (c, [])
  | p :: ps => do
    let r ← stepPipe c p
    let c1 := { r.1 with tickCount := r.1.tickCount + 1 }
    let r2 ← dispatchList c1 ps
    .ok (r2.1, r.2 :: r2.2)

/-- `while len(self.pipelines) > 0 and len(self.pipelines[0]) == 0:
self.pipelines.pop(0)`. -/
def dropLeadingEmpties : List (List MState) → List (List MState)
  | [] :: ps => dropLeadingEmpties ps
  | ps => ps

/-- `all(all(not state.fetchlocked() for state in pipeline) for pipeline
in self.pipelines)`. -/
def allUnlocked (ps : List (List MState)) : Bool :=
  ps.all (fun p => p.all (fun s => !s.fetchlocked))

/-- The interrupt selection: the most recent NMI wins, else the most
recent maskable request (`pending[-1]`). -/
def selectInterrupt (pending : List Bool) : Option Bool :=
  if pending.any (fun b => b) then some true
  else pending.getLast?

/-- The instruction-boundary block of `Z80CPU.clock` (the first
`if all(... not fetchlocked ...)`): reset the tick counter, consume any
latched interrupt — which in the source ALWAYS raises `NameError`,
because `interrupt_response` is neither defined in the repository nor
exported by `machinestates.__all__` — or raise if `int` is set with
nothing latched, else clear the latches. -/
def clockBoundary (c : CPU) : Except Err CPU :=
  if allUnlocked c.pipelines then
    match selectInterrupt c.pending with
    | some _ =>
      -- `self.iff1 = 0` (and `self.iff2 = 0` for a maskable request)
      -- executes before `interrupt_response(...)` raises `NameError`;
      -- the exception then propagates out of `clock`, so the partial
      -- mutations are not representable in the `Except` result.
      Except.error Err.nameErrorInterruptResponse
    | none =>
      if c.intFlag then Except.error Err.pyError
      else .ok { c with tickCount := 0, pending := [], intFlag := false }
  else .ok c

/-- The second fetch-lock check: schedule a fresh OCF pipeline when no
remaining state is fetch-locked. -/
def clockSchedule (c : CPU) : CPU :=
  if allUnlocked c.pipelines then
    { c with pipelines := c.pipelines ++ [[mkOCF []]] }
  else c

/-- `Z80CPU.clock`.  One T-state: dispatch every pipeline's head state,
pop leading empty pipelines, handle the instruction boundary, schedule
a fresh OCF pipeline when nothing is fetch-locked, and finally raise
`CPUStalled` if no pipeline remains. -/
def clock (c0 : CPU) : Except Err CPU := do
  let r ← dispatchList c0 c0.pipelines
  let c3 ← clockBoundary { r.1 with pipelines := dropLeadingEmpties r.2 }
  let c4 := clockSchedule c3
  if c4.pipelines.isEmpty then Except.error Err.cpuStalled
  else pure c4

/-- `Z80CPU.interrupt(ack=None, nmi=False)`: latch a request (accepted
when `nmi` or `iff1 != 0`); the `ack` payload is irrelevant because it
is only ever consumed by the missing `interrupt_response`. -/
def interrupt (c : CPU) (nmi : Bool) : CPU :=
  let c1 := { c with intFlag := c.intFlag || nmi || decide (c.iff1 ≠ 0) }
  if nmi || decide (c.iff1 ≠ 0) then { c1 with pending := c1.pending ++ [nmi] }
  else c1

/-- `Z80CPU.__init__` against a memory bus: reset registers, interrupts
disabled, mode 0, a single pipeline holding one fresh OCF. -/
def Z80CPU (mem : Mem) : CPU :=
  ⟨RegisterFile.reset, 0, 0, false, [], 0, mem, [[mkOCF []]], 0⟩

/-- Run `clock()` `n` times (propagating a raised exception). -/
def clockN : Nat → CPU → Except Err CPU
  | 0, c => .ok c
  | n + 1, c => do
    let c1 ← clock c
    clockN n c1

/-! ### Test scenarios and observation helpers

Concrete machine configurations used by the theorems (each matches a
scenario of the spec or of the repository's own test suite), plus
functions projecting an `Except Err CPU` onto observable values, so
that each end-to-end fact is a single evaluation. -/

/-- Memory preloaded with the given address/byte pairs, zero elsewhere
(the test harness writes a program into an otherwise fresh RAM). -/
def memFromPairs (ps : List (Int × Int)) : Mem := fun a => ((ps.lookup a).getD 0)

/-- Apply a list of register writes (the tests' `pre` actions). -/
def withRegs (c : CPU) (rs : List (RegN × Int)) : CPU :=
  { c with reg := rs.foldl (fun r p => r.set p.1 p.2) c.reg }

/-- Identify a machine-state kind (0 = OCF, 1 = OD, 2 = MR, 3 = MW,
4 = SR, 5 = SW, 6 = IO) with its phase. -/
def MState.kindPhase : MState → Nat × Nat
  | .ocf c => (0, c.phase)
  | .odS c => (1, c.phase)
  | .mrS c => (2, c.phase)
  | .mwS c => (3, c.phase)
  | .srS c => (4, c.phase)
  | .swS c => (5, c.phase)
  | .ioS c => (6, c.phase)

/-- Shapes of the live pipelines `(kind, phase)` per state; `[[(99,99)]]`
for a raised exception. -/
def pipeShape (r : Except Err CPU) : List (List (Nat × Nat)) :=
  match r with
  | .ok c => c.pipelines.map (fun p => p.map MState.kindPhase)
  | .error _ => [[(99, 99)]]

/-- Observe a register through a run result (`-1` on an exception). -/
def obsReg (r : Except Err CPU) (n : RegN) : Int :=
  match r with
  | .ok c => c.reg.get n
  | .error _ => -1

/-- Observe a flag through a run result. -/
def obsFlag (r : Except Err CPU) (f : FlagN) : Int :=
  match r with
  | .ok c => c.reg.getflag f
  | .error _ => -1

/-- Observe a memory byte through a run result. -/
def obsMem (r : Except Err CPU) (a : Int) : Int :=
  match r with
  | .ok c => membusRead c.mem a
  | .error _ => -1

/-- Scenario for C1 (spec §8 item 6): NOP at PC 0, IM 1, `iff1 = 1`,
then `interrupt(nmi=False)`. -/
def cpuIM1 : CPU :=
  interrupt { Z80CPU (memFromPairs []) with iff1 := 1, iff2 := 1, interruptMode := 1 }
    false

/-- Scenario for C7 (spec §8 item 4): LDIR, bytes `[0xED, 0xB0]`,
HL=0x1BBC, DE=0x2BBC, BC=2, memory[0x1BBC..0x1BBD] = [0x0B, 0x0C]. -/
def cpuLDIR : CPU :=
  withRegs (Z80CPU (memFromPairs [(0, 0xED), (1, 0xB0), (0x1BBC, 0x0B), (0x1BBD, 0x0C)]))
    [(.HL, 0x1BBC), (.DE, 0x2BBC), (.BC, 2)]

/-- Scenario for C6: PUSH BC (`0xC5`) with BC=0xCAFE, SP=0x2BBC (the
repository's own `test_push` configuration). -/
def cpuPUSHBC : CPU :=
  withRegs (Z80CPU (memFromPairs [(0, 0xC5)]))
    [(.B, 0xCA), (.C, 0xFE), (.SP, 0x2BBC)]

/-- ADD A,B (`0x80`) with the given register values. -/
def cpuADD (a b : Int) : CPU :=
  withRegs (Z80CPU (memFromPairs [(0, 0x80)])) [(.A, a), (.B, b)]

/-- CCF (`0x3F`) with the given F and A. -/
def cpuCCF (f a : Int) : CPU :=
  withRegs (Z80CPU (memFromPairs [(0, 0x3F)])) [(.F, f), (.A, a)]

/-- Bit `n` of a Python int (`(x >> n) & 0x1`), the same projection
`getflag` uses. -/
def bitget (x : Int) (n : Nat) : Int := pyand (pyshr x n) 1

/-- FROM THE SPEC (for comparison with the code): a byte read as a
two's-complement signed value. -/
def specSignedByte (b : Int) : Int := if 128 ≤ b then b - 256 else b

/-- FROM THE SPEC (for comparison with the code): C4's V predicate for
ADD — the signed sum of the operands viewed as signed bytes lies
outside [-128, 127]. -/
def specADDOverflow (a b : Int) : Bool :=
  decide (specSignedByte a + specSignedByte b > 127 ∨
          specSignedByte a + specSignedByte b < -128)

/-- FROM THE SPEC (for comparison with the code): C5's required F after
CCF — C complemented, H = old C, N = 0, bits 5 and 3 copied from A,
S, Z and P unchanged. -/
def specCCF (f a : Int) : Int :=
  128 * bitget f 7 + 64 * bitget f 6 + 32 * bitget a 5 + 16 * bitget f 0 +
    8 * bitget a 3 + 4 * bitget f 2 + (1 - bitget f 0)

/-- The untruncated result `D` that the code's `set_flags` receives, per
embedded 8-bit arithmetic instruction (the lambdas of the table
entries), as a function of A, B and the incoming carry flag. -/
def rawResult (opcode : IKey) (a b cin : Int) : Int :=
  match opcode with
  | .one 0x80 => a + b
  | .one 0x88 => a + b + cin
  | .one 0x90 => a - b
  | .one 0x98 => a - b - cin
  | .one 0xB8 => a - b
  | .one 0x04 => b + 1
  | .one 0x05 => b - 1
  | .two 0xED 0x44 => pyand (-a) 255
  | _ => 0

/-- NOP (`0x00`) from reset: the 4-T-state baseline opcode fetch. -/
def cpuNOP : CPU := Z80CPU (memFromPairs [])

/-! ## Theorems -/

@[simp] theorem pyand_nonneg_eq (x y : Int) (hx : 0 ≤ x) (hy : 0 ≤ y) :
    pyand x y = ((x.toNat &&& y.toNat : Nat) : Int) := by
  simp [pyand, hx, hy]

@[simp] theorem pyor_nonneg_eq (x y : Int) (hx : 0 ≤ x) (hy : 0 ≤ y) :
    pyor x y = ((x.toNat ||| y.toNat : Nat) : Int) := by
  simp [pyor, hx, hy]

theorem pyshr_nonneg_eq (x : Int) (n : Nat) (hx : 0 ≤ x) :
    pyshr x n = ((x.toNat >>> n : Nat) : Int) := by
  rw [pyshr, Int.fdiv_eq_ediv _ (Int.ofNat_nonneg _), Nat.shiftRight_eq_div_pow]
  rw [show ((x.toNat / 2 ^ n : Nat) : Int) = (x.toNat : Int) / ((2 ^ n : Nat) : Int) from rfl]
  congr 1
  omega

theorem pyand_mask_eq_mod (x : Int) (n : Nat) (hx : 0 ≤ x) :
    pyand x ((2 ^ n - 1 : Nat) : Int) = x % ((2 ^ n : Nat) : Int) := by
  rw [pyand_nonneg_eq x _ hx (Int.ofNat_nonneg _)]
  rw [Int.toNat_natCast, Nat.and_pow_two_sub_one_eq_mod]
  rw [show ((x.toNat % 2 ^ n : Nat) : Int) = (x.toNat : Int) % ((2 ^ n : Nat) : Int) from rfl]
  congr 1
  omega

theorem pyand_255 (x : Int) (hx : 0 ≤ x) : pyand x 255 = x % 256 := by
  have h := pyand_mask_eq_mod x 8 hx
  norm_num at h
  exact h

theorem pyand_65535 (x : Int) (hx : 0 ≤ x) : pyand x 65535 = x % 65536 := by
  have h := pyand_mask_eq_mod x 16 hx
  norm_num at h
  exact h

theorem pyand_15 (x : Int) (hx : 0 ≤ x) : pyand x 15 = x % 16 := by
  have h := pyand_mask_eq_mod x 4 hx
  norm_num at h
  exact h

theorem pyand_1 (x : Int) (hx : 0 ≤ x) : pyand x 1 = x % 2 := by
  have h := pyand_mask_eq_mod x 1 hx
  norm_num at h
  exact h

theorem pyshr_eq_ediv (x : Int) (n : Nat) :
    pyshr x n = x / ((2 ^ n : Nat) : Int) :=
  Int.fdiv_eq_ediv _ (Int.ofNat_nonneg _)

theorem pyshl_eq_mul (x : Int) (n : Nat) : pyshl x n = x * ((2 ^ n : Nat) : Int) := rfl

theorem pyand_nonneg (x y : Int) (hx : 0 ≤ x) (hy : 0 ≤ y) : 0 ≤ pyand x y := by
  rw [pyand_nonneg_eq x y hx hy]; positivity

theorem pyor_nonneg (x y : Int) (hx : 0 ≤ x) (hy : 0 ≤ y) : 0 ≤ pyor x y := by
  rw [pyor_nonneg_eq x y hx hy]; positivity

/-- Python `(x << 8) | y` for nonnegative `x` and `y < 256` is `256*x + y`. -/
theorem shl8_or_eq_add (x y : Int) (hx : 0 ≤ x) (hy : 0 ≤ y) (hy2 : y < 256) :
    pyor (pyshl x 8) y = 256 * x + y := by
  rw [pyor_nonneg_eq _ _ (by rw [pyshl_eq_mul]; positivity) hy]
  have h1 : (pyshl x 8).toNat = 2 ^ 8 * x.toNat := by
    rw [pyshl_eq_mul]
    norm_num
    omega
  have h3 : y.toNat < 2 ^ 8 := by omega
  have h4 := Nat.mul_add_lt_is_or h3 x.toNat
  rw [h1, ← h4]
  push_cast
  omega

/-- C1: the spec requires that with `iff1 = 1` in interrupt mode 1,
`interrupt(nmi=False)` followed by clocking to the end of the current
instruction plus 13 T-states leaves PC = 0x0038, `iff1 = iff2 = 0`, SP
decremented by 2 and the return address on the stack.  The code cannot
do this: `cpu.py` calls `interrupt_response(...)` at the instruction
boundary, but no such function exists anywhere in the repository (and
`machinestates.__all__` exports only `MachineState`, `OCF` and
`UnrecognisedInstructionError`), so the 4th `clock()` call — the
boundary after the 4-T-state NOP — raises `NameError` instead of
starting the acknowledge sequence.  This theorem exhibits the crash:
the scenario state is as the claim requires, three clocks succeed, and
the fourth raises. -/
theorem C1_im1_interrupt_crashes :
    cpuIM1.iff1 = 1 ∧ cpuIM1.interruptMode = 1 ∧ cpuIM1.pending = [false] ∧
    (clockN 3 cpuIM1).isOk = true ∧
    clockN 4 cpuIM1 = Except.error Err.nameErrorInterruptResponse :=
  ⟨rfl, rfl, rfl, rfl, rfl⟩

/-- C2: the spec claims every documented Z80 opcode key decodes,
naming 0x76 (HALT), 0xF3 (DI), 0xFB (EI) and the ED-page
interrupt-mode opcodes.  None of these keys is present in
`INSTRUCTION_STATES` (whose complete key set is transcribed in
`INSTRUCTION_KEY_EXTRAS`), so `decode_instruction` raises
`UnrecognisedInstructionError` on each of them — contradicting the
repository's own `test_halt`, which expects `[0x76, ...]` to execute.
The final conjunct shows the transcribed key set is not vacuous. -/
theorem C2_documented_opcodes_missing :
    (IKey.one 0x76) ∉ INSTRUCTION_KEYS ∧
    (IKey.one 0xF3) ∉ INSTRUCTION_KEYS ∧
    (IKey.one 0xFB) ∉ INSTRUCTION_KEYS ∧
    (IKey.two 0xED 0x46) ∉ INSTRUCTION_KEYS ∧
    (IKey.two 0xED 0x56) ∉ INSTRUCTION_KEYS ∧
    (IKey.two 0xED 0x5E) ∉ INSTRUCTION_KEYS ∧
    (IKey.one 0x76) ∉ INSTRUCTION_KEYS ∧
    (IKey.one 0x00) ∈ INSTRUCTION_KEYS ∧ (IKey.two 0xED 0xB0) ∈ INSTRUCTION_KEYS := by
  decide

/-- C3 (counterexample): writing 0x100 to the 8-bit register A does not
raise `ArithmeticError` — `RegisterFile.__setattr__` has no range check
— and a subsequent 8-bit read returns 0x100, outside [0, 2^8). -/
theorem C3_counterexample :
    (RegisterFile.reset.set .A 256).get .A = 256 ∧ ¬((256 : Int) < 256) := by
  constructor
  · rfl
  · omega

/-- C7: the LDIR scenario of spec §8 item 4.  From PC = 0 with bytes
`[0xED, 0xB0]`, HL = 0x1BBC, DE = 0x2BBC, BC = 2 and
memory[0x1BBC..0x1BBD] = [0x0B, 0x0C]: the first (non-final) iteration
ends exactly at T-state 21 (a fresh OCF is scheduled, PC is back at 0,
BC = 1) because the trailing 5-T-state internal state reset
PC ← PC − 2; at T-state 36 the final iteration is still inside its MW
state with the trailing internal state pending — which the `early_abort`
fired by BC = 0 then removes — and at T-state 37 the instruction is
complete with PC = 2, HL = 0x1BBE, DE = 0x2BBE, BC = 0,
memory[0x2BBC..0x2BBD] = [0x0B, 0x0C] and V = 0. -/
theorem C7_ldir_scenario :
    pipeShape (clockN 21 cpuLDIR) = [[(0, 0)]] ∧
    obsReg (clockN 21 cpuLDIR) .PC = 0 ∧
    obsReg (clockN 21 cpuLDIR) .BC = 1 ∧
    pipeShape (clockN 36 cpuLDIR) = [[(3, 3), (6, 0)]] ∧
    pipeShape (clockN 37 cpuLDIR) = [[(0, 0)]] ∧
    obsReg (clockN 37 cpuLDIR) .PC = 2 ∧
    obsReg (clockN 37 cpuLDIR) .HL = 0x1BBE ∧
    obsReg (clockN 37 cpuLDIR) .DE = 0x2BBE ∧
    obsReg (clockN 37 cpuLDIR) .BC = 0 ∧
    obsMem (clockN 37 cpuLDIR) 0x2BBC = 0x0B ∧
    obsMem (clockN 37 cpuLDIR) 0x2BBD = 0x0C ∧
    obsFlag (clockN 37 cpuLDIR) .V = 0 :=
  ⟨rfl, rfl, rfl, rfl, rfl, rfl, rfl, rfl, rfl, rfl, rfl, rfl⟩

/-- C6 (counterexample): PUSH BC (`0xC5`) has `extra_ticks_for_OCF = 1`,
yet its opcode fetch concludes on its 4th T-state, not 4 + 1 = 5: after
four clocks the OCF has already been popped and the pipeline holds the
two stack-write states.  Consequently the whole instruction takes 10
T-states (fetch 4 + two 3-T-state stack writes) — after ten clocks the
push is complete and a fresh OCF is scheduled — not the documented 11
the claim derives.  (The repository's own `test_push` also runs PUSH BC
for 10 T-states.) -/
theorem C6_counterexample :
    INSTRUCTION_KEY_EXTRAS.lookup (IKey.one 0xC5) = some 1 ∧
    pipeShape (clockN 4 cpuPUSHBC) = [[(5, 0), (5, 0)]] ∧
    pipeShape (clockN 10 cpuPUSHBC) = [[(0, 0)]] ∧
    obsReg (clockN 10 cpuPUSHBC) .PC = 1 ∧
    obsReg (clockN 10 cpuPUSHBC) .SP = 0x2BBA ∧
    obsMem (clockN 10 cpuPUSHBC) 0x2BBA = 0xFE ∧
    obsMem (clockN 10 cpuPUSHBC) 0x2BBB = 0xCA := by
  refine ⟨by decide, rfl, rfl, rfl, rfl, rfl, rfl⟩

/-- C6 (amended): the extra-ticks loop of `_OCF.run` runs
`range(0, extra_clocks - 1)`, so an OCF consumes 4 + max(e − 1, 0)
T-states; every entry of the table has e ≤ 1 (first conjunct, over the
complete transcribed table), hence every opcode fetch in this program
takes exactly 4 T-states.  The timing skeleton is shown on NOP (e = 0)
and PUSH BC (e = 1): both fetches are still running at T-state 3 and
have concluded at T-state 4; PUSH BC's two 3-T-state stack writes make
the instruction 10 T-states in total (complete at 10, not at 9). -/
theorem C6_amended :
    INSTRUCTION_KEY_EXTRAS.all (fun p => p.2 ≤ 1) = true ∧
    pipeShape (clockN 3 cpuNOP) = [[(0, 3)]] ∧
    pipeShape (clockN 4 cpuNOP) = [[(0, 0)]] ∧
    obsReg (clockN 4 cpuNOP) .PC = 1 ∧
    pipeShape (clockN 3 cpuPUSHBC) = [[(0, 3)]] ∧
    pipeShape (clockN 4 cpuPUSHBC) = [[(5, 0), (5, 0)]] ∧
    pipeShape (clockN 9 cpuPUSHBC) = [[(5, 2)]] ∧
    pipeShape (clockN 10 cpuPUSHBC) = [[(0, 0)]] := by
  refine ⟨by decide, rfl, rfl, rfl, rfl, rfl, rfl, rfl⟩

/-- C4 (counterexample): executing ADD A,B (`0x80`) with A = 0xFF,
B = 0x01 gives result 0x00 and sets V = 1 (the code computes
V from the untruncated unsigned sum 0x100 > 127), while the claim's
two's-complement predicate — the signed result −1 + 1 = 0 lies inside
[−128, 127] — requires V = 0. -/
theorem C4_counterexample :
    obsReg (clockN 4 (cpuADD 0xFF 0x01)) .A = 0 ∧
    obsFlag (clockN 4 (cpuADD 0xFF 0x01)) .V = 1 ∧
    specADDOverflow 0xFF 0x01 = false :=
  ⟨rfl, rfl, by decide⟩

/-- C5 (counterexample): executing CCF (`0x3F`) with F = 0x00,
A = 0x28 leaves F = 0x11 — the code computes
`F ← (F & 0xEC) | (~F & 0x11)`, so H becomes ¬H = 1 and bits 5 and 3
stay equal to F's — while the claim (H ← old C = 0, bits 5 and 3
copied from A = 0x28) would give F = 0x29. -/
theorem C5_counterexample :
    obsReg (clockN 4 (cpuCCF 0 0x28)) .F = 0x11 ∧
    specCCF 0 0x28 = 0x29 ∧ ((0x11 : Int) ≠ 0x29) :=
  ⟨rfl, by decide, by decide⟩

/-- No single-state tick can raise `CPUStalled`. -/
theorem stepOCF_no_stall (c : CPU) (o : OCFst) (rest : List MState) (e : Err)
    (h : stepOCF c o rest = .error e) : e ≠ Err.cpuStalled := by
  unfold stepOCF at h
  repeat' split at h
  all_goals try exact Except.noConfusion h
  all_goals (injection h with h2; subst h2; intro hc; cases hc)

theorem stepOD_no_stall (c : CPU) (o : ODst) (rest : List MState) (e : Err)
    (h : stepOD c o rest = .error e) : e ≠ Err.cpuStalled := by
  unfold stepOD at h
  repeat' split at h
  all_goals try exact Except.noConfusion h
  all_goals (injection h with h2; subst h2; intro hc; cases hc)

theorem stepMR_no_stall (c : CPU) (o : MRst) (rest : List MState) (e : Err)
    (h : stepMR c o rest = .error e) : e ≠ Err.cpuStalled := by
  unfold stepMR at h
  repeat' split at h
  all_goals try exact Except.noConfusion h
  all_goals (injection h with h2; subst h2; intro hc; cases hc)

theorem stepMW_no_stall (c : CPU) (o : MWst) (rest : List MState) (e : Err)
    (h : stepMW c o rest = .error e) : e ≠ Err.cpuStalled := by
  unfold stepMW at h
  repeat' split at h
  all_goals try exact Except.noConfusion h
  all_goals (injection h with h2; subst h2; intro hc; cases hc)

theorem stepSR_no_stall (c : CPU) (o : SRst) (rest : List MState) (e : Err)
    (h : stepSR c o rest = .error e) : e ≠ Err.cpuStalled := by
  unfold stepSR at h
  repeat' split at h
  all_goals try exact Except.noConfusion h
  all_goals (injection h with h2; subst h2; intro hc; cases hc)

theorem stepSW_no_stall (c : CPU) (o : SWst) (rest : List MState) (e : Err)
    (h : stepSW c o rest = .error e) : e ≠ Err.cpuStalled := by
  simp only [stepSW] at h
  repeat' split at h
  all_goals try exact Except.noConfusion h
  all_goals (injection h with h2; subst h2; intro hc; cases hc)

theorem stepIO_no_stall (c : CPU) (o : INst) (rest : List MState) (e : Err)
    (h : stepIO c o rest = .error e) : e ≠ Err.cpuStalled := by
  unfold stepIO at h
  repeat' split at h
  all_goals try exact Except.noConfusion h
  all_goals (injection h with h2; subst h2; intro hc; cases hc)

theorem stepPipe_no_stall (c : CPU) (p : List MState) (e : Err)
    (h : stepPipe c p = .error e) : e ≠ Err.cpuStalled := by
  unfold stepPipe at h
  split at h
  · injection h with h2; subst h2; intro hc; cases hc
  · exact stepOCF_no_stall _ _ _ _ h
  · exact stepOD_no_stall _ _ _ _ h
  · exact stepMR_no_stall _ _ _ _ h
  · exact stepMW_no_stall _ _ _ _ h
  · exact stepSR_no_stall _ _ _ _ h
  · exact stepSW_no_stall _ _ _ _ h
  · exact stepIO_no_stall _ _ _ _ h

theorem dispatchList_no_stall : ∀ (ps : List (List MState)) (c : CPU) (e : Err),
    dispatchList c ps = .error e → e ≠ Err.cpuStalled := by
  intro ps
  induction ps with
  | nil => intro c e h; simp [dispatchList] at h
  | cons p ps ih =>
    intro c e h
    simp only [dispatchList] at h
    cases hs : stepPipe c p with
    | error e2 =>
      rw [hs] at h
      simp only [Except.bind, bind] at h
      injection h with h2
      subst h2
      exact stepPipe_no_stall _ _ _ hs
    | ok r =>
      rw [hs] at h
      simp only [Except.bind, bind] at h
      cases hd : dispatchList { r.1 with tickCount := r.1.tickCount + 1 } ps with
      | error e3 =>
        rw [hd] at h
        simp only [Except.bind, bind] at h
        injection h with h2
        subst h2
        exact ih _ _ hd
      | ok r2 =>
        rw [hd] at h
        simp only [Except.bind, bind] at h
        exact Except.noConfusion h

theorem clockBoundary_no_stall (c : CPU) (e : Err)
    (h : clockBoundary c = .error e) : e ≠ Err.cpuStalled := by
  unfold clockBoundary at h
  repeat' split at h
  all_goals try exact Except.noConfusion h
  all_goals (injection h with h2; subst h2; intro hc; cases hc)

theorem clockSchedule_ne_nil (c : CPU) : (clockSchedule c).pipelines ≠ [] := by
  unfold clockSchedule
  by_cases h : allUnlocked c.pipelines = true
  · rw [if_pos h]
    simp
  · rw [if_neg h]
    intro hnil
    apply h
    rw [allUnlocked, hnil]
    rfl

/-- C10: `clock()` can never take the `CPUStalled` branch, and any
call that returns without raising leaves the pipelines list non-empty:
when nothing is fetch-locked a fresh OCF pipeline is appended before
the final emptiness check (`clockSchedule`), and when something is
fetch-locked the pipelines list cannot be empty (`all` over an empty
list is vacuously true). -/
theorem C10_clock_never_stalls : ∀ c : CPU,
    match clock c with
    | .ok c2 => c2.pipelines ≠ []
    | .error e => e ≠ Err.cpuStalled := by
  intro c
  unfold clock
  cases hd : dispatchList c c.pipelines with
  | error e =>
    simp only [hd, Except.bind, bind]
    exact dispatchList_no_stall _ _ _ hd
  | ok r =>
    simp only [hd, Except.bind, bind]
    cases hb : clockBoundary { r.1 with pipelines := dropLeadingEmpties r.2 } with
    | error e =>
      simp only [Except.bind, bind]
      exact clockBoundary_no_stall _ _ hb
    | ok c3 =>
      simp only [Except.bind, bind]
      have hne := clockSchedule_ne_nil c3
      have hemp : (clockSchedule c3).pipelines.isEmpty = false := by
        cases hp : (clockSchedule c3).pipelines with
        | nil => exact absurd hp hne
        | cons a l => rfl
      simp only [hemp, if_false, pure, Except.pure]
      exact hne

/-- C8: `ex()` twice is the identity on {A, F, A', F'}, `exx()` twice is
the identity on {B, C, D, E, H, L} and the shadow set, and a single
`exx()` leaves F and A unchanged (the source deliberately excludes AF
from `exx`). -/
theorem C8_ex_exx_involutions : ∀ rf : RegisterFile,
    (rf.ex.ex.A = rf.A ∧ rf.ex.ex.F = rf.F ∧ rf.ex.ex.sA = rf.sA ∧ rf.ex.ex.sF = rf.sF) ∧
    (rf.exx.exx.B = rf.B ∧ rf.exx.exx.C = rf.C ∧ rf.exx.exx.D = rf.D ∧
     rf.exx.exx.E = rf.E ∧ rf.exx.exx.H = rf.H ∧ rf.exx.exx.L = rf.L ∧
     rf.exx.exx.sB = rf.sB ∧ rf.exx.exx.sC = rf.sC ∧ rf.exx.exx.sD = rf.sD ∧
     rf.exx.exx.sE = rf.sE ∧ rf.exx.exx.sH = rf.sH ∧ rf.exx.exx.sL = rf.sL) ∧
    (rf.exx.F = rf.F ∧ rf.exx.A = rf.A) :=
  fun _ => ⟨⟨rfl, rfl, rfl, rfl⟩,
            ⟨rfl, rfl, rfl, rfl, rfl, rfl, rfl, rfl, rfl, rfl, rfl, rfl⟩,
            ⟨rfl, rfl⟩⟩

/-- A floor shift of a nonnegative int is nonnegative. -/
theorem pyshr_nonneg (x : Int) (n : Nat) (hx : 0 ≤ x) : 0 ≤ pyshr x n := by
  rw [pyshr_nonneg_eq x n hx]
  exact Int.ofNat_nonneg _

/-- C3 (amended): register writes are not range-checked.  A write to a
plain register stores ANY integer unchanged (so reads need not lie in
[0, 2^N)); a write to a 16-bit pair view splits the value into masked
halves `(v >> 8) & 0xFF` and `v & 0xFF`, and for a value inside
[0, 2^16) the pair therefore reads back unchanged. -/
theorem C3_amended : ∀ (rf : RegisterFile) (v : Int),
    ((rf.set .A v).get .A = v) ∧
    ((rf.set .I v).get .I = v) ∧
    ((rf.set .IX v).get .IX = v) ∧
    ((rf.set .BC v).get .B = pyand (pyshr v 8) 255) ∧
    ((rf.set .BC v).get .C = pyand v 255) ∧
    (0 ≤ v → v < 65536 → (rf.set .BC v).get .BC = v) := by
  intro rf v
  refine ⟨rfl, rfl, rfl, rfl, rfl, ?_⟩
  intro h0 h1
  show pyor (pyshl (pyand (pyshr v 8) 255) 8) (pyand v 255) = v
  have hs : pyshr v 8 = v / 256 := by
    rw [pyshr_eq_ediv]
    norm_num
  have hs0 : 0 ≤ v / 256 := Int.ediv_nonneg h0 (by norm_num)
  rw [pyand_255 v h0, hs, pyand_255 _ hs0]
  have hlt : v / 256 < 256 := by omega
  have hm : v / 256 % 256 = v / 256 := Int.emod_eq_of_lt hs0 hlt
  rw [hm, shl8_or_eq_add _ _ hs0 (Int.emod_nonneg v (by norm_num)) (Int.emod_lt_of_pos v (by norm_num))]
  omega

/-- Witness for C3 (amended) at `rf = reset`, `v = 0x1234`. -/
theorem C3_amended_witness : (RegisterFile.reset.set .BC 0x1234).get .BC = 0x1234 :=
  (C3_amended RegisterFile.reset 0x1234).2.2.2.2.2 (by norm_num) (by norm_num)

end PyZ80
